import Mathlib

/-!
Verification development for the Shattawale Telegram storefront payment
subsystem.  The definitions below are a shallow embedding of the payment
reconciliation core found in the repository sources:

* `src/server/services/reconciliation.ts` (ReconciliationService)
* `src/server/routes.ts` (the MTN MoMo webhook route)
* `src/server/services/telegram.ts` (TelegramService.processPaymentWithAddress
  and MTNMomoService, the latter also known as the mtn-momo module)
* the storage layer (DatabaseStorage) as documented in `src/README.md`

Machine timestamps are modelled as natural numbers of milliseconds since the
epoch.  The storage layer stamps an `updatedAt` timestamp on every update;
that bookkeeping field is not part of the model since no claim concerns it.
Database rows are modelled as lists of records; drizzle `update ... where
eq(id)` is a map over the list touching the rows whose id matches, which is
exactly what the embedding does.
-/

/-- Payment lifecycle statuses, from the `payment_status` pg enum in the
schema. -/
inductive PaymentStatus
  | PENDING
  | SUCCESS
  | FAILED
  | TIMEOUT
  | CANCELLED
deriving DecidableEq, Repr

/-- Order lifecycle statuses, from the `order_status` pg enum in the
schema. -/
inductive OrderStatus
  | PENDING
  | PAID
  | PACKED
  | SHIPPED
  | DELIVERED
  | CANCELLED
  | REFUNDED
deriving DecidableEq, Repr

/-- Result shape of `MTNMomoService.checkPaymentStatus`. -/
structure CheckStatusResult where
  status : String
  reason : Option String
  financialTransactionId : Option String
deriving DecidableEq, Repr

/-- Parsed body of an inbound MTN MoMo webhook notification, as read by the
`/api/webhooks/mtn-callback` route (`webhookData.status`,
`webhookData.referenceId`, `webhookData.externalId`).  `none` models an
absent (or JS-falsy `undefined`/`null`) field. -/
structure WebhookData where
  status : Option String
  referenceId : Option String
  externalId : Option String
deriving DecidableEq, Repr

/-- Diagnostic snapshot written into `payments.webhook_payload`: either the
raw webhook body (webhook route) or the reconciliation snapshot object
`\x7b reconciliation: true, mtnStatus, timestamp \x7d` written by
`runReconciliation`. -/
inductive StoredPayload
  | fromWebhook (d : WebhookData)
  | reconSnapshot (mtnStatus : CheckStatusResult) (timestampMs : Nat)
deriving DecidableEq, Repr

/-- A row of the `payments` table (fields relevant to the payment core). -/
structure Payment where
  id : String
  orderId : String
  provider : String
  amountGhs : String
  currency : String
  status : PaymentStatus
  providerReference : Option String
  externalId : String
  customerPhone : String
  idempotencyKey : String
  webhookPayload : Option StoredPayload
  createdAt : Nat
deriving DecidableEq, Repr

/-- A row of the `orders` table (fields relevant to the payment core). -/
structure Order where
  id : String
  status : OrderStatus
  customerPhone : Option String
  totalGhs : String
  notes : Option String
deriving DecidableEq, Repr

/-- The payment ledger: the `payments` and `orders` tables. -/
structure Ledger where
  payments : List Payment
  orders : List Order
deriving DecidableEq, Repr

/-- JS truthiness of an optional string field (absent, `null` and the empty
string are falsy). -/
def strTruthy : Option String → Bool
  | some s => decide (s ≠ "")
  | none => false

/-- Partial update of a payment row, as passed to `storage.updatePayment`.
A `none` field is left untouched; the callers in the payment core only ever
write `status`, `providerReference` and `webhookPayload`. -/
structure PaymentPatch where
  status : Option PaymentStatus := none
  providerReference : Option (Option String) := none
  webhookPayload : Option StoredPayload := none

/-- Apply a partial update to one payment row. -/
def applyPaymentPatch (u : PaymentPatch) (p : Payment) : Payment :=
  { p with
    status := u.status.getD p.status
    providerReference := u.providerReference.getD p.providerReference
    webhookPayload :=
      match u.webhookPayload with
      | some pl => some pl
      | none => p.webhookPayload }

/-- The row transformer of `storage.updatePayment(id, u)`: rows whose id
matches are patched, the rest are untouched. -/
def patchIfId (id : String) (u : PaymentPatch) (p : Payment) : Payment :=
  if p.id = id then applyPaymentPatch u p else p

/-- `storage.updatePayment(id, u)` on the ledger. -/
def updatePayment (L : Ledger) (id : String) (u : PaymentPatch) : Ledger :=
  { L with payments := L.payments.map (patchIfId id u) }

/-- The row transformer of `storage.updateOrder(id, \x7b status \x7d)`. -/
def setOrderStatusIfId (id : String) (st : OrderStatus) (o : Order) : Order :=
  if o.id = id then { o with status := st } else o

/-- `storage.updateOrder(id, \x7b status \x7d)` on the ledger (the payment
core only ever updates the status field of an order). -/
def updateOrder (L : Ledger) (id : String) (st : OrderStatus) : Ledger :=
  { L with orders := L.orders.map (setOrderStatusIfId id st) }

/-- Point lookup of a payment row by id. -/
def paymentById (L : Ledger) (id : String) : Option Payment :=
  L.payments.find? (fun p => decide (p.id = id))

/-- Status of the payment row with the given id, if present. -/
def paymentStatusById (L : Ledger) (id : String) : Option PaymentStatus :=
  (paymentById L id).map (·.status)

/-- Point lookup of an order row by id. -/
def orderById (L : Ledger) (id : String) : Option Order :=
  L.orders.find? (fun o => decide (o.id = id))

/-- Status of the order row with the given id, if present. -/
def orderStatusById (L : Ledger) (id : String) : Option OrderStatus :=
  (orderById L id).map (·.status)

/-- Rows of the payments table have pairwise distinct ids (the schema
declares `id` as primary key). -/
def distinctPaymentIds (L : Ledger) : Prop :=
  L.payments.Pairwise (fun a b => a.id ≠ b.id)

/-- Rows of the orders table have pairwise distinct ids (primary key). -/
def distinctOrderIds (L : Ledger) : Prop :=
  L.orders.Pairwise (fun a b => a.id ≠ b.id)

instance (L : Ledger) : Decidable (distinctPaymentIds L) := by
  unfold distinctPaymentIds; infer_instance

instance (L : Ledger) : Decidable (distinctOrderIds L) := by
  unfold distinctOrderIds; infer_instance

section ListHelpers

variable {α : Type _}

/-- `find?` commutes with a map that does not change whether any element of
the list satisfies the predicate. -/
theorem find?_map_pres (f : α → α) (q : α → Bool) :
    ∀ (l : List α), (∀ x ∈ l, q (f x) = q x) →
      (l.map f).find? q = (l.find? q).map f := by
  intro l
  induction l with
  | nil => intro _; rfl
  | cons a t ih =>
    intro h
    have ha := h a (List.mem_cons_self a t)
    cases hqa : q a with
    | true =>
      rw [List.map_cons, List.find?_cons_of_pos _ (by rw [ha, hqa]),
        List.find?_cons_of_pos _ hqa, Option.map_some']
    | false =>
      rw [List.map_cons, List.find?_cons_of_neg _ (by simp [ha, hqa]),
        List.find?_cons_of_neg _ (by simp [hqa])]
      exact ih (fun x hx => h x (List.mem_cons_of_mem _ hx))

/-- If some member satisfies the predicate and every satisfying member is
equal to it, then `find?` returns exactly that member. -/
theorem find?_eq_some_of_unique (q : α → Bool) (a : α) :
    ∀ (l : List α), a ∈ l → q a = true →
      (∀ x ∈ l, q x = true → x = a) → l.find? q = some a := by
  intro l
  induction l with
  | nil => intro h; exact absurd h (List.not_mem_nil a)
  | cons b t ih =>
    intro hm hqa huniq
    cases hqb : q b with
    | true =>
      rw [List.find?_cons_of_pos _ hqb]
      exact congrArg some (huniq b (List.mem_cons_self b t) hqb)
    | false =>
      rw [List.find?_cons_of_neg _ (by simp [hqb])]
      have hat : a ∈ t := by
        rcases List.mem_cons.mp hm with h | h
        · exact absurd hqa (by rw [h, hqb]; exact Bool.false_ne_true)
        · exact h
      exact ih hat hqa (fun x hx hqx => huniq x (List.mem_cons_of_mem _ hx) hqx)

/-- A map that fixes every member of a list is the identity on that list. -/
theorem map_eq_self_of_fix (f : α → α) :
    ∀ (l : List α), (∀ x ∈ l, f x = x) → l.map f = l := by
  intro l
  induction l with
  | nil => intro _; rfl
  | cons a t ih =>
    intro h
    rw [List.map_cons, h a (List.mem_cons_self a t),
      ih (fun x hx => h x (List.mem_cons_of_mem _ hx))]

end ListHelpers

/-- With pairwise distinct ids, any member whose id matches the key of
another member is that member. -/
theorem eq_of_mem_of_id_eq {p x : Payment} {l : List Payment}
    (hpair : l.Pairwise (fun a b => a.id ≠ b.id))
    (hp : p ∈ l) (hx : x ∈ l) (hid : x.id = p.id) : x = p := by
  by_contra hne
  have := List.Pairwise.forall (R := fun a b : Payment => a.id ≠ b.id)
    (fun a b h => (Ne.symm h)) hpair hx hp hne
  exact this hid

/-- With pairwise distinct order ids, any member whose id matches the key of
another member is that member. -/
theorem order_eq_of_mem_of_id_eq {o x : Order} {l : List Order}
    (hpair : l.Pairwise (fun a b => a.id ≠ b.id))
    (ho : o ∈ l) (hx : x ∈ l) (hid : x.id = o.id) : x = o := by
  by_contra hne
  have := List.Pairwise.forall (R := fun a b : Order => a.id ≠ b.id)
    (fun a b h => (Ne.symm h)) hpair hx ho hne
  exact this hid

/-- Point lookup finds exactly the member when ids are pairwise distinct. -/
theorem paymentById_of_mem {L : Ledger} {p : Payment}
    (hd : distinctPaymentIds L) (hp : p ∈ L.payments) :
    paymentById L p.id = some p := by
  exact find?_eq_some_of_unique _ p _ hp (by simp)
    (fun x hx hqx => eq_of_mem_of_id_eq hd hp hx (by simpa using hqx))

/-- Point lookup finds exactly the member when order ids are pairwise
distinct. -/
theorem orderById_of_mem {L : Ledger} {o : Order}
    (hd : distinctOrderIds L) (ho : o ∈ L.orders) :
    orderById L o.id = some o := by
  exact find?_eq_some_of_unique _ o _ ho (by simp)
    (fun x hx hqx => order_eq_of_mem_of_id_eq hd ho hx (by simpa using hqx))

/-- Patching a payment row does not change its id. -/
theorem applyPaymentPatch_id (u : PaymentPatch) (p : Payment) :
    (applyPaymentPatch u p).id = p.id := rfl

/-- The row transformer of updatePayment does not change ids. -/
theorem patchIfId_id (id : String) (u : PaymentPatch) (p : Payment) :
    (patchIfId id u p).id = p.id := by
  unfold patchIfId; split <;> rfl

/-- Lookup after `updatePayment`: the patch is visible exactly at the
updated key. -/
theorem paymentById_updatePayment (L : Ledger) (id : String)
    (u : PaymentPatch) (k : String) :
    paymentById (updatePayment L id u) k
      = (paymentById L k).map (patchIfId id u) := by
  unfold paymentById updatePayment
  exact find?_map_pres _ _ _ (fun x _ => by rw [patchIfId_id])

/-- Lookup after `updatePayment` at a different key is unchanged. -/
theorem paymentById_updatePayment_ne (L : Ledger) (id : String)
    (u : PaymentPatch) (k : String) (hne : k ≠ id) :
    paymentById (updatePayment L id u) k = paymentById L k := by
  rw [paymentById_updatePayment]
  cases hfind : paymentById L k with
  | none => rfl
  | some q =>
    have hqid : q.id = k := by
      have := List.find?_some hfind
      simpa using this
    simp [patchIfId, hqid, hne]

/-- The row transformer of updateOrder does not change ids. -/
theorem setOrderStatusIfId_id (id : String) (st : OrderStatus) (o : Order) :
    (setOrderStatusIfId id st o).id = o.id := by
  unfold setOrderStatusIfId; split <;> rfl

/-- Lookup after `updateOrder`: the write is visible exactly at the updated
key. -/
theorem orderById_updateOrder (L : Ledger) (id : String)
    (st : OrderStatus) (k : String) :
    orderById (updateOrder L id st) k
      = (orderById L k).map (setOrderStatusIfId id st) := by
  unfold orderById updateOrder
  exact find?_map_pres _ _ _ (fun x _ => by rw [setOrderStatusIfId_id])

/-- Lookup after `updateOrder` at a different key is unchanged. -/
theorem orderById_updateOrder_ne (L : Ledger) (id : String)
    (st : OrderStatus) (k : String) (hne : k ≠ id) :
    orderById (updateOrder L id st) k = orderById L k := by
  rw [orderById_updateOrder]
  cases hfind : orderById L k with
  | none => rfl
  | some q =>
    have hqid : q.id = k := by
      have := List.find?_some hfind
      simpa using this
    simp [setOrderStatusIfId, hqid, hne]

/-- `updatePayment` does not touch the orders table. -/
theorem orders_updatePayment (L : Ledger) (id : String) (u : PaymentPatch) :
    (updatePayment L id u).orders = L.orders := rfl

/-- `updateOrder` does not touch the payments table. -/
theorem payments_updateOrder (L : Ledger) (id : String) (st : OrderStatus) :
    (updateOrder L id st).payments = L.payments := rfl

/-!
## Payment Gateway Client: phone validation and normalization

`MTNMomoService.formatPhoneNumber` matches the input against the regex
pattern of an optional-international Ghana number — the prefix alternation
followed by a captured run of exactly nine ASCII digits, anchored at both
ends — and returns the international form, or throws on no match (modelled
as `none`).  `initiateCollection` and the Telegram checkout flow test the
same pattern without capturing.
-/

/-- The nine captured digits of a Ghana phone number, when the input matches
the anchored pattern (international or national-leading-zero shape).  The
match is performed on the character sequence of the string, mirroring the
anchored regex: one of the two prefix alternatives followed by exactly nine
ASCII digits and the end of input. -/
def ghanaLocalDigits (phone : String) : Option (List Char) :=
  match phone.data with
  | '+' :: '2' :: '3' :: '3' :: rest =>
    if rest.length = 9 ∧ rest.all Char.isDigit then some rest else none
  | '0' :: rest =>
    if rest.length = 9 ∧ rest.all Char.isDigit then some rest else none
  | _ => none

/-- `MTNMomoService.formatPhoneNumber`: validate and normalize to
international format; `none` models the thrown validation error. -/
def formatPhoneNumber (phone : String) : Option String :=
  (ghanaLocalDigits phone).map (fun digits => "+233" ++ String.mk digits)

/-- The boolean phone test used by `initiateCollection` and the checkout
flow (same pattern, no capture). -/
def ghanaPhoneTest (phone : String) : Bool :=
  (ghanaLocalDigits phone).isSome

/-- C8: `formatPhoneNumber` accepts both the national and the international
shape of the same number and returns the identical normalized value
`+233244123456` for both, while `1234567890` and `+1234567890` are rejected
(the source throws; the embedding returns `none`). -/
theorem c8_phone_normalization :
    formatPhoneNumber "0244123456" = some "+233244123456" ∧
    formatPhoneNumber "+233244123456" = some "+233244123456" ∧
    formatPhoneNumber "0244123456" = formatPhoneNumber "+233244123456" ∧
    formatPhoneNumber "1234567890" = none ∧
    formatPhoneNumber "+1234567890" = none := by
  refine ⟨?_, ?_, ?_, ?_, ?_⟩ <;> decide

/-!
## Reconciliation status query

`ReconciliationService.getStatus` reports `lastRun` as `new Date()` taken at
the moment of the query and `nextRun` via `getNextRunTime`, which ignores
the configured cron expression and simply adds fifteen minutes to the
current time.  The service stores no record of when a reconciliation pass
actually ran, so the model takes no run-history input at all.
-/

/-- The admin-facing status view returned by
`ReconciliationService.getStatus`. -/
structure ReconStatusView where
  isRunning : Bool
  schedule : String
  lastRunMs : Nat
  nextRunMs : Nat
deriving DecidableEq, Repr

/-- `ReconciliationService.getStatus`, with `nowMs` the clock reading at the
moment of the query. -/
def getStatus (isRunning : Bool) (cronExpression : String) (nowMs : Nat) :
    ReconStatusView :=
  { isRunning := isRunning
    schedule := cronExpression
    lastRunMs := nowMs
    nextRunMs := nowMs + 15 * 60 * 1000 }

/-- C10: the status query reports `lastRun` as the moment of the query
itself and `nextRun` as exactly fifteen minutes later, independently of the
configured cron expression; the service keeps no record of actual runs, so
the reported times cannot depend on them (the model accordingly has no
run-history input). -/
theorem c10_status_reports_query_time (b : Bool) (cron : String) (nowMs : Nat) :
    (getStatus b cron nowMs).lastRunMs = nowMs ∧
    (getStatus b cron nowMs).nextRunMs = nowMs + 15 * 60 * 1000 ∧
    (∀ cron₂ : String,
      (getStatus b cron₂ nowMs).lastRunMs = (getStatus b cron nowMs).lastRunMs ∧
      (getStatus b cron₂ nowMs).nextRunMs = (getStatus b cron nowMs).nextRunMs) :=
  ⟨rfl, rfl, fun _ => ⟨rfl, rfl⟩⟩

/-!
## Collection Initiator: checkout

`TelegramService.processPaymentWithAddress` first calls
`mtnMomoService.initiateCollection`; only when the collection request is
accepted does it create the Order and the Payment (both PENDING).  The
created payment carries `idempotencyKey: payment_<externalId>` with
`externalId = ecom_<Date.now()>_<chatId>`.  `initiateCollection` never
throws: authentication failures, phone-validation failures and transport
errors are all caught and returned as a `success: false` result.  Fresh
identifiers produced by nondeterministic generators (uuidv4, database row
ids) are supplied by the environment.
-/

/-- Result of `MTNMomoService.initiateCollection`. -/
structure CollectionResult where
  referenceId : String
  success : Bool
  error : Option String
deriving DecidableEq, Repr

/-- Outcome of the requesttopay HTTP call: 202 Accepted, any other status
(business rejection), or a thrown transport error. -/
inductive CollectHttp
  | accepted202
  | rejected (statusText : String)
  | networkThrow (msg : String)
deriving DecidableEq, Repr

/-- Environment of one `initiateCollection` call: whether authentication
succeeds, the fresh uuidv4 reference id, and the HTTP outcome. -/
structure GatewayEnv where
  authOk : Bool
  freshReferenceId : String
  http : CollectHttp
deriving Repr

/-- `MTNMomoService.initiateCollection` (the request body fields that are
only transmitted to the provider are omitted).  Mirrors the source control
flow: a failed `getAuthToken`, an invalid phone number and a thrown fetch
error are all caught by the surrounding try/catch and surface as
`success: false` with `referenceId: ""`; a non-202 response returns the
fresh reference id with `success: false`; a 202 response returns it with
`success: true`. -/
def initiateCollection (g : GatewayEnv) (customerPhone : String) :
    CollectionResult :=
  if ¬ g.authOk then
    { referenceId := "", success := false,
      error := some "Failed to get MTN token" }
  else if ¬ ghanaPhoneTest customerPhone then
    { referenceId := "", success := false,
      error := some "Invalid phone number format. Use +233XXXXXXXXX or 0XXXXXXXXX" }
  else
    match g.http with
    | .accepted202 =>
      { referenceId := g.freshReferenceId, success := true, error := none }
    | .rejected st =>
      { referenceId := g.freshReferenceId, success := false,
        error := some ("Payment request failed: " ++ st) }
    | .networkThrow m =>
      { referenceId := "", success := false, error := some m }

/-- `MTNMomoService.generateIdempotencyKey(orderId)`: the order id framed by
the literal prefix and a fresh uuidv4 (supplied by the environment).  This
helper is present in the source but is not called by the checkout flow. -/
def generateIdempotencyKey (orderId uuid : String) : String :=
  "order:" ++ orderId ++ ":" ++ uuid

/-- Environment of one `processPaymentWithAddress` call. -/
structure CheckoutEnv where
  nowMs : Nat
  chatId : Int
  phoneNumber : String
  deliveryAddress : String
  gateway : GatewayEnv
  freshOrderId : String
  freshPaymentId : String
deriving Repr

/-- The external id minted at checkout: `ecom_<Date.now()>_<chatId>`. -/
def checkoutExternalId (env : CheckoutEnv) : String :=
  "ecom_" ++ toString env.nowMs ++ "_" ++ toString env.chatId

/-- The gateway call made at checkout. -/
def checkoutCollectionResult (env : CheckoutEnv) : CollectionResult :=
  initiateCollection env.gateway env.phoneNumber

/-- The order row created by checkout when the collection request was
accepted. -/
def checkoutOrder (env : CheckoutEnv) : Order :=
  { id := env.freshOrderId
    status := .PENDING
    customerPhone := some env.phoneNumber
    totalGhs := "25.00"
    notes := some ("Delivery Address: " ++ env.deliveryAddress) }

/-- The payment row created by checkout when the collection request was
accepted. -/
def checkoutPayment (env : CheckoutEnv) : Payment :=
  { id := env.freshPaymentId
    orderId := env.freshOrderId
    provider := "mtn_momo"
    amountGhs := "25.00"
    currency := "GHS"
    status := .PENDING
    providerReference := some (checkoutCollectionResult env).referenceId
    externalId := checkoutExternalId env
    customerPhone := env.phoneNumber
    idempotencyKey := "payment_" ++ checkoutExternalId env
    webhookPayload := none
    createdAt := env.nowMs }

/-- `TelegramService.processPaymentWithAddress`: call the gateway, and only
on success insert the Order and then the Payment; on `success: false` (and
on a transport error, which `initiateCollection` has already converted into
`success: false`) nothing is written, only a failure message is sent to the
chat. -/
def processPaymentWithAddress (env : CheckoutEnv) (L : Ledger) : Ledger :=
  if (checkoutCollectionResult env).success then
    { L with
      orders := L.orders ++ [checkoutOrder env]
      payments := L.payments ++ [checkoutPayment env] }
  else L

/-- The empty ledger. -/
def emptyLedger : Ledger := { payments := [], orders := [] }

/-- A concrete checkout whose collection request is rejected by the
provider (HTTP status other than 202). -/
def c4RejectEnv : CheckoutEnv :=
  { nowMs := 1000
    chatId := 42
    phoneNumber := "0244123456"
    deliveryAddress := "1 Main St"
    gateway := { authOk := true, freshReferenceId := "ref-1",
                 http := .rejected "Bad Request" }
    freshOrderId := "ord-1"
    freshPaymentId := "pay-1" }

/-- A concrete checkout whose collection request is accepted. -/
def c4AcceptEnv : CheckoutEnv :=
  { nowMs := 1000
    chatId := 42
    phoneNumber := "0244123456"
    deliveryAddress := "1 Main St"
    gateway := { authOk := true, freshReferenceId := "ref-1",
                 http := .accepted202 }
    freshOrderId := "ord-1"
    freshPaymentId := "pay-1" }

/-- C4 counterexample: a checkout whose collection request comes back
`accepted: false` leaves the ledger untouched — no Order row and no Payment
row exist afterwards, so nothing is in PENDING state and nothing can later
time out.  This falsifies the claim that the Order and Payment are created
before the gateway call and survive a gateway failure in PENDING state. -/
theorem c4_counterexample :
    (checkoutCollectionResult c4RejectEnv).success = false ∧
    processPaymentWithAddress c4RejectEnv emptyLedger = emptyLedger ∧
    (processPaymentWithAddress c4RejectEnv emptyLedger).payments = [] ∧
    (processPaymentWithAddress c4RejectEnv emptyLedger).orders = [] := by
  refine ⟨?_, ?_, ?_, ?_⟩ <;> decide

/-- C4 amended: checkout calls the gateway first; the Order (PENDING) and
Payment (PENDING, provider reference recorded) are created only when
`initiateCollection` reports acceptance, and on `accepted: false` or a
thrown transport error (both surfacing as `success: false`) no Order or
Payment is created at all, so nothing is left behind for the timeout
transition. -/
theorem c4_checkout_creates_only_on_acceptance (env : CheckoutEnv) (L : Ledger) :
    ((checkoutCollectionResult env).success = false →
      processPaymentWithAddress env L = L) ∧
    ((checkoutCollectionResult env).success = true →
      (processPaymentWithAddress env L).orders = L.orders ++ [checkoutOrder env] ∧
      (processPaymentWithAddress env L).payments = L.payments ++ [checkoutPayment env] ∧
      (checkoutOrder env).status = .PENDING ∧
      (checkoutPayment env).status = .PENDING ∧
      (checkoutPayment env).orderId = (checkoutOrder env).id ∧
      (checkoutPayment env).providerReference
        = some (checkoutCollectionResult env).referenceId) := by
  constructor
  · intro h
    unfold processPaymentWithAddress
    rw [h]
    rfl
  · intro h
    unfold processPaymentWithAddress
    rw [h]
    exact ⟨rfl, rfl, rfl, rfl, rfl, rfl⟩

/-- Witness for C4 amended: both branches evaluated at concrete checkouts. -/
theorem c4_checkout_creates_only_on_acceptance_witness :
    processPaymentWithAddress c4RejectEnv emptyLedger = emptyLedger ∧
    (processPaymentWithAddress c4AcceptEnv emptyLedger).orders
      = [] ++ [checkoutOrder c4AcceptEnv] ∧
    (processPaymentWithAddress c4AcceptEnv emptyLedger).payments
      = [] ++ [checkoutPayment c4AcceptEnv] ∧
    (checkoutOrder c4AcceptEnv).status = .PENDING ∧
    (checkoutPayment c4AcceptEnv).status = .PENDING ∧
    (checkoutPayment c4AcceptEnv).orderId = (checkoutOrder c4AcceptEnv).id ∧
    (checkoutPayment c4AcceptEnv).providerReference
      = some (checkoutCollectionResult c4AcceptEnv).referenceId := by
  have h1 := (c4_checkout_creates_only_on_acceptance c4RejectEnv emptyLedger).1
    (by decide)
  have h2 := (c4_checkout_creates_only_on_acceptance c4AcceptEnv emptyLedger).2
    (by decide)
  exact ⟨h1, h2.1, h2.2.1, h2.2.2.1, h2.2.2.2.1, h2.2.2.2.2.1, h2.2.2.2.2.2⟩

/-- A concrete accepted checkout differing from `c4AcceptEnv` only in the
fresh row identifiers generated by the database and the gateway. -/
def c9OtherOrderEnv : CheckoutEnv :=
  { nowMs := 1000
    chatId := 42
    phoneNumber := "0244123456"
    deliveryAddress := "1 Main St"
    gateway := { authOk := true, freshReferenceId := "ref-2",
                 http := .accepted202 }
    freshOrderId := "ord-2"
    freshPaymentId := "pay-2" }

/-- C9 counterexample: two accepted checkouts that create payments owned by
different orders (`ord-1` versus `ord-2`) produce the identical idempotency
key `payment_ecom_1000_42`.  The key therefore does not depend on the
owning order id and carries no fresh random component, so it is neither
unique nor derived from the order id as claimed; checkout never calls the
`generateIdempotencyKey` helper that would have produced an
order-id-plus-uuid key. -/
theorem c9_counterexample :
    (processPaymentWithAddress c4AcceptEnv emptyLedger).payments.map
        (fun p => (p.orderId, p.idempotencyKey))
      = [("ord-1", "payment_ecom_1000_42")] ∧
    (processPaymentWithAddress c9OtherOrderEnv emptyLedger).payments.map
        (fun p => (p.orderId, p.idempotencyKey))
      = [("ord-2", "payment_ecom_1000_42")] ∧
    ("ord-1" : String) ≠ "ord-2" := by
  refine ⟨?_, ?_, ?_⟩ <;> decide

/-- C9 amended: the payment created at an accepted checkout carries the
idempotency key `payment_<externalId>` with
`externalId = ecom_<Date.now()>_<chatId>` — a function of the clock and the
chat only, with no order-id and no random component; the
`MTNMomoService.generateIdempotencyKey` helper, which would build
`order:<orderId>:<uuid>`, exists but is not used by checkout. -/
theorem c9_idempotency_key_shape (env : CheckoutEnv) (L : Ledger)
    (h : (checkoutCollectionResult env).success = true) :
    ((processPaymentWithAddress env L).payments
      = L.payments ++ [checkoutPayment env] ∧
     (checkoutPayment env).idempotencyKey
      = "payment_ecom_" ++ toString env.nowMs ++ "_" ++ toString env.chatId) ∧
    (∀ orderId uuid : String,
      generateIdempotencyKey orderId uuid = "order:" ++ orderId ++ ":" ++ uuid) := by
  refine ⟨⟨?_, ?_⟩, fun _ _ => rfl⟩
  · unfold processPaymentWithAddress
    rw [h]
    rfl
  · show "payment_" ++ ("ecom_" ++ toString env.nowMs ++ "_" ++ toString env.chatId)
      = "payment_ecom_" ++ toString env.nowMs ++ "_" ++ toString env.chatId
    simp only [← String.append_assoc]
    rfl

/-- Witness for C9 amended at a concrete accepted checkout. -/
theorem c9_idempotency_key_shape_witness :
    ((processPaymentWithAddress c4AcceptEnv emptyLedger).payments
      = [] ++ [checkoutPayment c4AcceptEnv] ∧
     (checkoutPayment c4AcceptEnv).idempotencyKey
      = "payment_ecom_" ++ toString (1000 : Nat) ++ "_" ++ toString (42 : Int)) ∧
    generateIdempotencyKey "order123" "u-1" = "order:order123:u-1" := by
  have h := c9_idempotency_key_shape c4AcceptEnv emptyLedger (by decide)
  exact ⟨h.1, h.2 "order123" "u-1"⟩

/-!
## Payment Gateway Client: status polling

`MTNMomoService.checkPaymentStatus` never throws: a non-OK HTTP response
raises inside the try block and a network error raises in the fetch, and
both are caught and converted to the sentinel result
`\x7b status: "FAILED", reason: "Status check failed" \x7d`.  The transport
outcome for each polled reference is provided by the environment.
-/

/-- Outcome of one status-poll HTTP exchange with the provider. -/
inductive ProviderResponse
  | ok (status : String) (reason : Option String)
      (financialTransactionId : Option String)
  | httpError (statusText : String)
  | networkError (msg : String)
deriving DecidableEq, Repr

/-- A transport failure: any outcome other than an OK response. -/
def isTransportFailure : ProviderResponse → Bool
  | .ok _ _ _ => false
  | .httpError _ => true
  | .networkError _ => true

/-- `MTNMomoService.checkPaymentStatus` as a function of the transport
outcome. -/
def checkPaymentStatus : ProviderResponse → CheckStatusResult
  | .ok st r f => { status := st, reason := r, financialTransactionId := f }
  | .httpError _ =>
    { status := "FAILED", reason := some "Status check failed",
      financialTransactionId := none }
  | .networkError _ =>
    { status := "FAILED", reason := some "Status check failed",
      financialTransactionId := none }

/-!
## Reconciliation Engine

`ReconciliationService.runReconciliation` fetches the PENDING payments once,
then loops over that snapshot.  Each iteration is wrapped in try/catch: an
exception thrown by a storage write is logged and the loop continues with
the next payment.  The environment records, per payment id, whether and
where such an exception strikes (`ThrowPoint`): before the payment write
(which also covers a gateway-client throw, though `checkPaymentStatus`
itself never throws), or between the payment write and the order write.

The loop body is split into its effect on the ledger (`stepLedger`) and its
effect on the counters (`stepCounters`); the two commute because the
writes never read the counters and the counters never read the ledger.
-/

/-- Where, if anywhere, an exception strikes while processing one payment
of the batch. -/
inductive ThrowPoint
  | noThrow
  | atPaymentWrite
  | atOrderWrite
deriving DecidableEq, Repr

/-- Environment of one reconciliation pass: the clock, the configured
timeout, the transport outcome of each possible status poll (keyed by
provider reference), and the exception behaviour per payment id. -/
structure ReconEnv where
  nowMs : Nat
  timeoutMinutes : Nat
  transport : String → ProviderResponse
  throwAt : String → ThrowPoint

/-- The configured timeout in milliseconds. -/
def timeoutMsOf (env : ReconEnv) : Int :=
  (env.timeoutMinutes : Int) * 60 * 1000

/-- The age check of step 2: `Date.now() - payment.createdAt.getTime() >
timeoutMs` (strict). -/
def isTimedOut (env : ReconEnv) (p : Payment) : Bool :=
  decide ((env.nowMs : Int) - (p.createdAt : Int) > timeoutMsOf env)

/-- Apply one resolution (payment patch then order status write) under the
per-payment exception behaviour: if the payment write throws nothing is
written, if the order write throws only the payment write lands. -/
def applyResolutionL (env : ReconEnv) (p : Payment) (u : PaymentPatch)
    (ost : OrderStatus) (L : Ledger) : Ledger :=
  match env.throwAt p.id with
  | .atPaymentWrite => L
  | .atOrderWrite => updatePayment L p.id u
  | .noThrow => updateOrder (updatePayment L p.id u) p.orderId ost

/-- Ledger effect of one iteration of the reconciliation loop.  Timed-out
payments are resolved TIMEOUT/CANCELLED without contacting the provider;
otherwise, when a (truthy) provider reference is recorded, the provider is
polled and SUCCESSFUL maps to SUCCESS/PAID, FAILED to FAILED/CANCELLED,
anything else (still pending) writes nothing. -/
def stepLedger (env : ReconEnv) (L : Ledger) (p : Payment) : Ledger :=
  if isTimedOut env p then
    applyResolutionL env p { status := some .TIMEOUT } .CANCELLED L
  else
    match p.providerReference with
    | none => L
    | some ref =>
      if ref = "" then L
      else
        let res := checkPaymentStatus (env.transport ref)
        if res.status = "SUCCESSFUL" then
          applyResolutionL env p
            { status := some .SUCCESS,
              webhookPayload := some (.reconSnapshot res env.nowMs) } .PAID L
        else if res.status = "FAILED" then
          applyResolutionL env p
            { status := some .FAILED,
              webhookPayload := some (.reconSnapshot res env.nowMs) } .CANCELLED L
        else L

/-- The counters of one reconciliation pass, plus the trace of provider
references actually polled. -/
structure ReconCounters where
  processed : Nat
  updated : Nat
  timedOut : Nat
  polls : List String
deriving DecidableEq, Repr

/-- Counter effect of one iteration of the reconciliation loop.  `processed`
counts every payment of the snapshot; `timedOut` and `updated` count only
iterations whose two writes both land; `polls` records each provider
reference for which `checkPaymentStatus` is called. -/
def stepCounters (env : ReconEnv) (c : ReconCounters) (p : Payment) :
    ReconCounters :=
  let c1 := { c with processed := c.processed + 1 }
  if isTimedOut env p then
    match env.throwAt p.id with
    | .noThrow => { c1 with timedOut := c1.timedOut + 1 }
    | _ => c1
  else
    match p.providerReference with
    | none => c1
    | some ref =>
      if ref = "" then c1
      else
        let c2 := { c1 with polls := c1.polls ++ [ref] }
        let res := checkPaymentStatus (env.transport ref)
        if res.status = "SUCCESSFUL" then
          match env.throwAt p.id with
          | .noThrow => { c2 with updated := c2.updated + 1 }
          | _ => c2
        else if res.status = "FAILED" then
          match env.throwAt p.id with
          | .noThrow => { c2 with updated := c2.updated + 1 }
          | _ => c2
        else c2

/-- The PENDING snapshot fetched by `storage.getPendingPayments()` at the
start of the pass. -/
def pendingOf (L : Ledger) : List Payment :=
  L.payments.filter (fun p => decide (p.status = .PENDING))

/-- Result of one reconciliation pass. -/
structure ReconReport where
  ledger : Ledger
  processed : Nat
  updated : Nat
  timedOut : Nat
  polls : List String

/-- `ReconciliationService.runReconciliation`: loop over the PENDING
snapshot, resolving each payment by timeout check or provider poll, with
per-iteration exceptions caught so the batch always completes. -/
def runReconciliation (env : ReconEnv) (L : Ledger) : ReconReport :=
  let pending := pendingOf L
  let finalLedger := pending.foldl (stepLedger env) L
  let finalCounters := pending.foldl (stepCounters env) ⟨0, 0, 0, []⟩
  { ledger := finalLedger
    processed := finalCounters.processed
    updated := finalCounters.updated
    timedOut := finalCounters.timedOut
    polls := finalCounters.polls }

/-- Result of `ReconciliationService.forceReconciliation`. -/
structure ForceResult where
  success : Bool
  message : String
deriving DecidableEq, Repr

/-- `ReconciliationService.forceReconciliation`: when the in-memory
`isRunning` guard is held, return the already-running failure without
touching the ledger; otherwise run one pass.  A run skipped by the guard is
not queued — the caller simply gets the failure result. -/
def forceReconciliation (isRunning : Bool) (env : ReconEnv) (L : Ledger) :
    ForceResult × Ledger :=
  if isRunning then
    ({ success := false, message := "Reconciliation is already running" }, L)
  else
    ({ success := true, message := "Reconciliation completed successfully" },
     (runReconciliation env L).ledger)

/-- C6: while a reconciliation pass is in flight (the `isRunning` guard is
held), `forceReconciliation` returns a failure result whose message says
reconciliation is already running and performs no payment or order writes —
the ledger is returned exactly as it was, and the skipped run is not
queued. -/
theorem c6_mutual_exclusion (env : ReconEnv) (L : Ledger) :
    (forceReconciliation true env L).1.success = false ∧
    (forceReconciliation true env L).1.message
      = "Reconciliation is already running" ∧
    (forceReconciliation true env L).2 = L :=
  ⟨rfl, rfl, rfl⟩

/-- `updateOrder` is invisible to payment lookups. -/
theorem paymentById_updateOrder (L : Ledger) (i : String) (st : OrderStatus)
    (k : String) : paymentById (updateOrder L i st) k = paymentById L k := rfl

/-- `updatePayment` is invisible to order lookups. -/
theorem orderById_updatePayment (L : Ledger) (i : String) (u : PaymentPatch)
    (k : String) : orderById (updatePayment L i u) k = orderById L k := rfl

/-- A patch that writes a status is fully visible in the status lookup at
the updated key. -/
theorem paymentStatusById_updatePayment_at (L : Ledger) (id : String)
    (u : PaymentPatch) (st : PaymentStatus) (hu : u.status = some st) :
    paymentStatusById (updatePayment L id u) id
      = (paymentStatusById L id).map (fun _ => st) := by
  unfold paymentStatusById
  rw [paymentById_updatePayment]
  cases hq : paymentById L id with
  | none => rfl
  | some q =>
    have hid : q.id = id := by simpa using List.find?_some hq
    simp [patchIfId, hid, applyPaymentPatch, hu]

/-- An order-status write is fully visible in the status lookup at the
updated key. -/
theorem orderStatusById_updateOrder_at (L : Ledger) (id : String)
    (st : OrderStatus) :
    orderStatusById (updateOrder L id st) id
      = (orderStatusById L id).map (fun _ => st) := by
  unfold orderStatusById
  rw [orderById_updateOrder]
  cases hq : orderById L id with
  | none => rfl
  | some q =>
    have hid : q.id = id := by simpa using List.find?_some hq
    simp [setOrderStatusIfId, hid]

/-- The payment status a loop iteration leaves behind for its own payment,
as a function of the environment and the snapshot row alone: `some s` when
the payment write lands with status `s`, `none` when the iteration writes
no payment status (still pending, missing or empty reference, or an
exception before the payment write). -/
def resolvedPaymentStatus (env : ReconEnv) (p : Payment) :
    Option PaymentStatus :=
  if isTimedOut env p then
    match env.throwAt p.id with
    | .atPaymentWrite => none
    | _ => some .TIMEOUT
  else
    match p.providerReference with
    | none => none
    | some ref =>
      if ref = "" then none
      else
        let res := checkPaymentStatus (env.transport ref)
        if res.status = "SUCCESSFUL" then
          match env.throwAt p.id with
          | .atPaymentWrite => none
          | _ => some .SUCCESS
        else if res.status = "FAILED" then
          match env.throwAt p.id with
          | .atPaymentWrite => none
          | _ => some .FAILED
        else none

/-- The order status a loop iteration writes for its payment's owning
order, or `none` when the order write does not land. -/
def resolvedOrderStatus (env : ReconEnv) (p : Payment) : Option OrderStatus :=
  if isTimedOut env p then
    match env.throwAt p.id with
    | .noThrow => some .CANCELLED
    | _ => none
  else
    match p.providerReference with
    | none => none
    | some ref =>
      if ref = "" then none
      else
        let res := checkPaymentStatus (env.transport ref)
        if res.status = "SUCCESSFUL" then
          match env.throwAt p.id with
          | .noThrow => some .PAID
          | _ => none
        else if res.status = "FAILED" then
          match env.throwAt p.id with
          | .noThrow => some .CANCELLED
          | _ => none
        else none

/-- One loop iteration does not touch payment rows other than its own. -/
theorem stepLedger_payment_frame (env : ReconEnv) (L : Ledger) (p : Payment)
    (k : String) (h : k ≠ p.id) :
    paymentById (stepLedger env L p) k = paymentById L k := by
  have hAR : ∀ (u : PaymentPatch) (ost : OrderStatus),
      paymentById (applyResolutionL env p u ost L) k = paymentById L k := by
    intro u ost
    unfold applyResolutionL
    cases env.throwAt p.id <;>
      simp [paymentById_updateOrder, paymentById_updatePayment_ne _ _ _ _ h]
  unfold stepLedger
  by_cases hto : isTimedOut env p = true
  · simp only [hto, if_true]
    exact hAR _ _
  · simp only [hto, if_false, Bool.false_eq_true]
    cases p.providerReference with
    | none => rfl
    | some ref =>
      by_cases hre : ref = ""
      · simp [hre]
      · simp only [hre, if_false]
        by_cases hs : (checkPaymentStatus (env.transport ref)).status = "SUCCESSFUL"
        · simp only [hs, if_true]
          exact hAR _ _
        · simp only [hs, if_false]
          by_cases hf : (checkPaymentStatus (env.transport ref)).status = "FAILED"
          · simp only [hf, if_true]
            exact hAR _ _
          · simp [hf]

/-- One loop iteration does not touch order rows other than the one owning
its payment. -/
theorem stepLedger_order_frame (env : ReconEnv) (L : Ledger) (p : Payment)
    (k : String) (h : k ≠ p.orderId) :
    orderById (stepLedger env L p) k = orderById L k := by
  have hAR : ∀ (u : PaymentPatch) (ost : OrderStatus),
      orderById (applyResolutionL env p u ost L) k = orderById L k := by
    intro u ost
    unfold applyResolutionL
    cases env.throwAt p.id <;>
      simp [orderById_updatePayment, orderById_updateOrder_ne _ _ _ _ h]
  unfold stepLedger
  by_cases hto : isTimedOut env p = true
  · simp only [hto, if_true]
    exact hAR _ _
  · simp only [hto, if_false, Bool.false_eq_true]
    cases p.providerReference with
    | none => rfl
    | some ref =>
      by_cases hre : ref = ""
      · simp [hre]
      · simp only [hre, if_false]
        by_cases hs : (checkPaymentStatus (env.transport ref)).status = "SUCCESSFUL"
        · simp only [hs, if_true]
          exact hAR _ _
        · simp only [hs, if_false]
          by_cases hf : (checkPaymentStatus (env.transport ref)).status = "FAILED"
          · simp only [hf, if_true]
            exact hAR _ _
          · simp [hf]

/-- Status the iteration leaves at its own payment key: exactly the
resolved status when a write lands, the previous status otherwise. -/
theorem stepLedger_status_at (env : ReconEnv) (L : Ledger) (p : Payment) :
    paymentStatusById (stepLedger env L p) p.id
      = (paymentStatusById L p.id).map
          (fun old => (resolvedPaymentStatus env p).getD old) := by
  have hAR : ∀ (u : PaymentPatch) (ost : OrderStatus) (st : PaymentStatus),
      u.status = some st →
      paymentStatusById (applyResolutionL env p u ost L) p.id
        = (paymentStatusById L p.id).map
            (fun old =>
              ((match env.throwAt p.id with
                | .atPaymentWrite => (none : Option PaymentStatus)
                | _ => some st)).getD old) := by
    intro u ost st hu
    unfold applyResolutionL
    cases env.throwAt p.id with
    | noThrow =>
      show paymentStatusById (updateOrder _ _ _) p.id = _
      have : paymentStatusById (updateOrder (updatePayment L p.id u) p.orderId ost) p.id
          = paymentStatusById (updatePayment L p.id u) p.id := rfl
      rw [this, paymentStatusById_updatePayment_at _ _ _ _ hu]
      rfl
    | atPaymentWrite =>
      cases hq : paymentStatusById L p.id <;> simp [hq]
    | atOrderWrite =>
      rw [paymentStatusById_updatePayment_at _ _ _ _ hu]
      rfl
  unfold stepLedger resolvedPaymentStatus
  by_cases hto : isTimedOut env p = true
  · simp only [hto, if_true]
    exact hAR _ _ _ rfl
  · simp only [hto, if_false, Bool.false_eq_true]
    cases p.providerReference with
    | none => cases hq : paymentStatusById L p.id <;> simp [hq]
    | some ref =>
      by_cases hre : ref = ""
      · simp only [hre, if_true]
        cases hq : paymentStatusById L p.id <;> simp [hq]
      · simp only [hre, if_false]
        by_cases hs : (checkPaymentStatus (env.transport ref)).status = "SUCCESSFUL"
        · simp only [hs, if_true]
          exact hAR _ _ _ rfl
        · simp only [hs, if_false]
          by_cases hf : (checkPaymentStatus (env.transport ref)).status = "FAILED"
          · simp only [hf, if_true]
            exact hAR _ _ _ rfl
          · simp only [hf, if_false]
            cases hq : paymentStatusById L p.id <;> simp [hq]

/-- Order status the iteration leaves at its payment's owning order key. -/
theorem stepLedger_order_at (env : ReconEnv) (L : Ledger) (p : Payment) :
    orderStatusById (stepLedger env L p) p.orderId
      = (orderStatusById L p.orderId).map
          (fun old => (resolvedOrderStatus env p).getD old) := by
  have hAR : ∀ (u : PaymentPatch) (ost : OrderStatus),
      orderStatusById (applyResolutionL env p u ost L) p.orderId
        = (orderStatusById L p.orderId).map
            (fun old =>
              ((match env.throwAt p.id with
                | .noThrow => some ost
                | _ => (none : Option OrderStatus))).getD old) := by
    intro u ost
    unfold applyResolutionL
    cases env.throwAt p.id with
    | noThrow =>
      have : orderStatusById (updateOrder (updatePayment L p.id u) p.orderId ost) p.orderId
          = (orderStatusById (updatePayment L p.id u) p.orderId).map (fun _ => ost) :=
        orderStatusById_updateOrder_at _ _ _
      rw [this]
      have h2 : orderStatusById (updatePayment L p.id u) p.orderId
          = orderStatusById L p.orderId := rfl
      rw [h2]
      rfl
    | atPaymentWrite =>
      cases hq : orderStatusById L p.orderId <;> simp [hq]
    | atOrderWrite =>
      have h2 : orderStatusById (updatePayment L p.id u) p.orderId
          = orderStatusById L p.orderId := rfl
      rw [h2]
      cases hq : orderStatusById L p.orderId <;> simp [hq]
  unfold stepLedger resolvedOrderStatus
  by_cases hto : isTimedOut env p = true
  · simp only [hto, if_true]
    exact hAR _ _
  · simp only [hto, if_false, Bool.false_eq_true]
    cases p.providerReference with
    | none => cases hq : orderStatusById L p.orderId <;> simp [hq]
    | some ref =>
      by_cases hre : ref = ""
      · simp only [hre, if_true]
        cases hq : orderStatusById L p.orderId <;> simp [hq]
      · simp only [hre, if_false]
        by_cases hs : (checkPaymentStatus (env.transport ref)).status = "SUCCESSFUL"
        · simp only [hs, if_true]
          exact hAR _ _
        · simp only [hs, if_false]
          by_cases hf : (checkPaymentStatus (env.transport ref)).status = "FAILED"
          · simp only [hf, if_true]
            exact hAR _ _
          · simp only [hf, if_false]
            cases hq : orderStatusById L p.orderId <;> simp [hq]

/-- The whole loop does not touch payment rows whose id belongs to no
snapshot payment. -/
theorem foldl_payment_frame (env : ReconEnv) :
    ∀ (ps : List Payment) (L : Ledger) (k : String),
      (∀ q ∈ ps, k ≠ q.id) →
      paymentById (ps.foldl (stepLedger env) L) k = paymentById L k := by
  intro ps
  induction ps with
  | nil => intro L k _; rfl
  | cons a t ih =>
    intro L k h
    rw [List.foldl_cons,
      ih (stepLedger env L a) k (fun q hq => h q (List.mem_cons_of_mem _ hq)),
      stepLedger_payment_frame env L a k (h a (List.mem_cons_self a t))]

/-- The whole loop does not touch order rows owned by no snapshot
payment. -/
theorem foldl_order_frame (env : ReconEnv) :
    ∀ (ps : List Payment) (L : Ledger) (k : String),
      (∀ q ∈ ps, k ≠ q.orderId) →
      orderById (ps.foldl (stepLedger env) L) k = orderById L k := by
  intro ps
  induction ps with
  | nil => intro L k _; rfl
  | cons a t ih =>
    intro L k h
    rw [List.foldl_cons,
      ih (stepLedger env L a) k (fun q hq => h q (List.mem_cons_of_mem _ hq)),
      stepLedger_order_frame env L a k (h a (List.mem_cons_self a t))]

/-- Final payment status after the loop, for any snapshot payment, when the
snapshot ids are pairwise distinct: exactly the resolution of its own
iteration applied to its pre-pass status. -/
theorem foldl_status_at (env : ReconEnv) :
    ∀ (ps : List Payment) (L : Ledger) (p : Payment),
      ps.Pairwise (fun a b => a.id ≠ b.id) → p ∈ ps →
      paymentStatusById (ps.foldl (stepLedger env) L) p.id
        = (paymentStatusById L p.id).map
            (fun old => (resolvedPaymentStatus env p).getD old) := by
  intro ps
  induction ps with
  | nil => intro L p _ hp; exact absurd hp (List.not_mem_nil p)
  | cons a t ih =>
    intro L p hpair hp
    have hhead := (List.pairwise_cons.mp hpair).1
    have htail := (List.pairwise_cons.mp hpair).2
    rw [List.foldl_cons]
    rcases List.mem_cons.mp hp with rfl | hpt
    · have hframe : paymentById (t.foldl (stepLedger env) (stepLedger env L p)) p.id
          = paymentById (stepLedger env L p) p.id :=
        foldl_payment_frame env t (stepLedger env L p) p.id
          (fun q hq => hhead q hq)
      show paymentStatusById (t.foldl (stepLedger env) (stepLedger env L p)) p.id = _
      unfold paymentStatusById
      rw [hframe]
      exact stepLedger_status_at env L p
    · have hne : p.id ≠ a.id := fun h => (hhead p hpt) h.symm
      have hstep : paymentById (stepLedger env L a) p.id = paymentById L p.id :=
        stepLedger_payment_frame env L a p.id hne
      have := ih (stepLedger env L a) p htail hpt
      rw [this]
      unfold paymentStatusById
      rw [hstep]

/-- Final order status after the loop, for the order owning any snapshot
payment, when the snapshot order ids are pairwise distinct. -/
theorem foldl_order_at (env : ReconEnv) :
    ∀ (ps : List Payment) (L : Ledger) (p : Payment),
      ps.Pairwise (fun a b => a.orderId ≠ b.orderId) → p ∈ ps →
      orderStatusById (ps.foldl (stepLedger env) L) p.orderId
        = (orderStatusById L p.orderId).map
            (fun old => (resolvedOrderStatus env p).getD old) := by
  intro ps
  induction ps with
  | nil => intro L p _ hp; exact absurd hp (List.not_mem_nil p)
  | cons a t ih =>
    intro L p hpair hp
    have hhead := (List.pairwise_cons.mp hpair).1
    have htail := (List.pairwise_cons.mp hpair).2
    rw [List.foldl_cons]
    rcases List.mem_cons.mp hp with rfl | hpt
    · have hframe : orderById (t.foldl (stepLedger env) (stepLedger env L p)) p.orderId
          = orderById (stepLedger env L p) p.orderId :=
        foldl_order_frame env t (stepLedger env L p) p.orderId
          (fun q hq => hhead q hq)
      show orderStatusById (t.foldl (stepLedger env) (stepLedger env L p)) p.orderId = _
      unfold orderStatusById
      rw [hframe]
      exact stepLedger_order_at env L p
    · have hne : p.orderId ≠ a.orderId := fun h => (hhead p hpt) h.symm
      have hstep : orderById (stepLedger env L a) p.orderId = orderById L p.orderId :=
        stepLedger_order_frame env L a p.orderId hne
      have := ih (stepLedger env L a) p htail hpt
      rw [this]
      unfold orderStatusById
      rw [hstep]

/-- Every iteration increments `processed` by exactly one, whatever
happens. -/
theorem stepCounters_processed (env : ReconEnv) (c : ReconCounters)
    (p : Payment) : (stepCounters env c p).processed = c.processed + 1 := by
  unfold stepCounters
  by_cases hto : isTimedOut env p = true
  · simp only [hto, if_true]
    cases env.throwAt p.id <;> rfl
  · simp only [hto, if_false, Bool.false_eq_true]
    cases p.providerReference with
    | none => rfl
    | some ref =>
      by_cases hre : ref = ""
      · simp [hre]
      · simp only [hre, if_false]
        by_cases hs : (checkPaymentStatus (env.transport ref)).status = "SUCCESSFUL"
        · simp only [hs, if_true]
          cases env.throwAt p.id <;> rfl
        · simp only [hs, if_false]
          by_cases hf : (checkPaymentStatus (env.transport ref)).status = "FAILED"
          · simp only [hf, if_true]
            cases env.throwAt p.id <;> rfl
          · simp [hf]

/-- The provider references one iteration polls: none for a timed-out
payment, none without a truthy recorded reference, otherwise exactly its
own reference. -/
def stepPolls (env : ReconEnv) (p : Payment) : List String :=
  if isTimedOut env p then []
  else
    match p.providerReference with
    | none => []
    | some ref => if ref = "" then [] else [ref]

/-- The poll trace of one iteration. -/
theorem stepCounters_polls (env : ReconEnv) (c : ReconCounters)
    (p : Payment) :
    (stepCounters env c p).polls = c.polls ++ stepPolls env p := by
  unfold stepCounters stepPolls
  by_cases hto : isTimedOut env p = true
  · simp only [hto, if_true]
    cases env.throwAt p.id <;> simp
  · simp only [hto, if_false, Bool.false_eq_true]
    cases p.providerReference with
    | none => simp
    | some ref =>
      by_cases hre : ref = ""
      · simp [hre]
      · simp only [hre, if_false]
        by_cases hs : (checkPaymentStatus (env.transport ref)).status = "SUCCESSFUL"
        · simp only [hs, if_true]
          cases env.throwAt p.id <;> rfl
        · simp only [hs, if_false]
          by_cases hf : (checkPaymentStatus (env.transport ref)).status = "FAILED"
          · simp only [hf, if_true]
            cases env.throwAt p.id <;> rfl
          · simp [hf]

/-- A polled reference always belongs to a non-timed-out payment. -/
theorem mem_stepPolls (env : ReconEnv) (p : Payment) (r : String)
    (h : r ∈ stepPolls env p) :
    isTimedOut env p = false ∧ p.providerReference = some r := by
  unfold stepPolls at h
  by_cases hto : isTimedOut env p = true
  · simp [hto] at h
  · simp only [hto, if_false, Bool.false_eq_true] at h
    cases hpr : p.providerReference with
    | none => rw [hpr] at h; simp at h
    | some ref =>
      rw [hpr] at h
      by_cases hre : ref = ""
      · simp [hre] at h
      · simp only [hre, if_false] at h
        have : r = ref := by simpa using h
        exact ⟨by simpa using hto, by rw [this]⟩

/-- `processed` over the whole loop counts the snapshot exactly. -/
theorem foldl_processed (env : ReconEnv) :
    ∀ (ps : List Payment) (c : ReconCounters),
      (ps.foldl (stepCounters env) c).processed = c.processed + ps.length := by
  intro ps
  induction ps with
  | nil => intro c; rfl
  | cons a t ih =>
    intro c
    rw [List.foldl_cons, ih, stepCounters_processed, List.length_cons]
    omega

/-- Every reference in the final poll trace was contributed by some
non-timed-out snapshot payment. -/
theorem foldl_polls_mem (env : ReconEnv) :
    ∀ (ps : List Payment) (c : ReconCounters) (r : String),
      r ∈ (ps.foldl (stepCounters env) c).polls →
      r ∈ c.polls ∨
        ∃ q, q ∈ ps ∧ isTimedOut env q = false ∧ q.providerReference = some r := by
  intro ps
  induction ps with
  | nil => intro c r h; exact Or.inl h
  | cons a t ih =>
    intro c r h
    rw [List.foldl_cons] at h
    rcases ih (stepCounters env c a) r h with hc | ⟨q, hq, hrest⟩
    · rw [stepCounters_polls] at hc
      rcases List.mem_append.mp hc with hc | hc
      · exact Or.inl hc
      · have := mem_stepPolls env a r hc
        exact Or.inr ⟨a, List.mem_cons_self a t, this⟩
    · exact Or.inr ⟨q, List.mem_cons_of_mem _ hq, hrest⟩

/-- Snapshot membership. -/
theorem mem_pendingOf {L : Ledger} {p : Payment} :
    p ∈ pendingOf L ↔ p ∈ L.payments ∧ p.status = .PENDING := by
  simp [pendingOf, List.mem_filter]

/-- Pairwise distinct payment ids restrict to the snapshot. -/
theorem pendingOf_pairwise_ids {L : Ledger} (h : distinctPaymentIds L) :
    (pendingOf L).Pairwise (fun a b => a.id ≠ b.id) :=
  h.sublist (List.filter_sublist _)

/-- The ledger of a pass is the loop folded over the PENDING snapshot. -/
theorem runReconciliation_ledger (env : ReconEnv) (L : Ledger) :
    (runReconciliation env L).ledger
      = (pendingOf L).foldl (stepLedger env) L := rfl

/-- A pass attempts every payment of the snapshot. -/
theorem runReconciliation_processed (env : ReconEnv) (L : Ledger) :
    (runReconciliation env L).processed = (pendingOf L).length := by
  show ((pendingOf L).foldl (stepCounters env) ⟨0, 0, 0, []⟩).processed = _
  rw [foldl_processed]
  show 0 + (pendingOf L).length = (pendingOf L).length
  omega

/-- Every reference a pass polls belongs to a non-timed-out snapshot
payment. -/
theorem runReconciliation_polls_mem (env : ReconEnv) (L : Ledger)
    (r : String) (h : r ∈ (runReconciliation env L).polls) :
    ∃ q, q ∈ pendingOf L ∧ isTimedOut env q = false ∧
      q.providerReference = some r := by
  have : r ∈ ((pendingOf L).foldl (stepCounters env) ⟨0, 0, 0, []⟩).polls := h
  rcases foldl_polls_mem env (pendingOf L) ⟨0, 0, 0, []⟩ r this with hc | hq
  · exact absurd hc (List.not_mem_nil r)
  · exact hq

/-- Final status of a PENDING payment after one pass: the resolution of its
own iteration, defaulting to its old status when no write lands. -/
theorem runReconciliation_pending_status (env : ReconEnv) {L : Ledger}
    {p : Payment} (hd : distinctPaymentIds L) (hp : p ∈ L.payments)
    (hpend : p.status = .PENDING) :
    paymentStatusById (runReconciliation env L).ledger p.id
      = some ((resolvedPaymentStatus env p).getD p.status) := by
  have hmem : p ∈ pendingOf L := mem_pendingOf.mpr ⟨hp, hpend⟩
  rw [runReconciliation_ledger,
    foldl_status_at env (pendingOf L) L p (pendingOf_pairwise_ids hd) hmem]
  unfold paymentStatusById
  rw [paymentById_of_mem hd hp]
  rfl

/-- A payment that is not PENDING is untouched by a pass. -/
theorem runReconciliation_nonpending_status (env : ReconEnv) {L : Ledger}
    {p : Payment} (hd : distinctPaymentIds L) (hp : p ∈ L.payments)
    (hnp : p.status ≠ .PENDING) :
    paymentStatusById (runReconciliation env L).ledger p.id
      = some p.status := by
  have hframe : ∀ q ∈ pendingOf L, p.id ≠ q.id := by
    intro q hq heq
    have hqp := (mem_pendingOf.mp hq).1
    have hqs := (mem_pendingOf.mp hq).2
    have : q = p := eq_of_mem_of_id_eq hd hp hqp heq.symm
    exact hnp (this ▸ hqs)
  rw [runReconciliation_ledger]
  unfold paymentStatusById
  rw [foldl_payment_frame env (pendingOf L) L p.id hframe,
    paymentById_of_mem hd hp]
  rfl

/-- Final status of the order owning a snapshot payment, when no two
snapshot payments share an order. -/
theorem runReconciliation_order_status (env : ReconEnv) {L : Ledger}
    {p : Payment} {o : Order} (hdo : distinctOrderIds L)
    (hpair : (pendingOf L).Pairwise (fun a b => a.orderId ≠ b.orderId))
    (hp : p ∈ pendingOf L) (ho : o ∈ L.orders) (hoid : o.id = p.orderId) :
    orderStatusById (runReconciliation env L).ledger p.orderId
      = some ((resolvedOrderStatus env p).getD o.status) := by
  rw [runReconciliation_ledger,
    foldl_order_at env (pendingOf L) L p hpair hp]
  unfold orderStatusById
  have := orderById_of_mem hdo ho
  rw [hoid] at this
  rw [this]
  rfl

/-- An order owned by no snapshot payment is untouched by a pass. -/
theorem runReconciliation_order_frame (env : ReconEnv) {L : Ledger}
    {o : Order} (hdo : distinctOrderIds L) (ho : o ∈ L.orders)
    (hns : ∀ q ∈ pendingOf L, o.id ≠ q.orderId) :
    orderStatusById (runReconciliation env L).ledger o.id = some o.status := by
  rw [runReconciliation_ledger]
  unfold orderStatusById
  rw [foldl_order_frame env (pendingOf L) L o.id hns, orderById_of_mem hdo ho]
  rfl

/-- A transport failure makes `checkPaymentStatus` return the FAILED-shaped
sentinel. -/
theorem checkPaymentStatus_of_transport_failure (resp : ProviderResponse)
    (h : isTransportFailure resp = true) :
    checkPaymentStatus resp
      = { status := "FAILED", reason := some "Status check failed",
          financialTransactionId := none } := by
  cases resp with
  | ok st r f => exact absurd h (by simp [isTransportFailure])
  | httpError st => rfl
  | networkError m => rfl

/-!
### C3 — timeout precedence
-/

/-- The PENDING payment of the C3 scenario: created at the epoch, provider
reference recorded. -/
def c3Payment : Payment :=
  { id := "p1", orderId := "o1", provider := "mtn_momo", amountGhs := "25.00",
    currency := "GHS", status := .PENDING, providerReference := some "r1",
    externalId := "e1", customerPhone := "+233244123456",
    idempotencyKey := "k1", webhookPayload := none, createdAt := 0 }

/-- The owning order of the C3 scenario. -/
def c3Order : Order :=
  { id := "o1", status := .PENDING, customerPhone := some "+233244123456",
    totalGhs := "25.00", notes := none }

/-- The C3 ledger: one PENDING payment and its order. -/
def c3Ledger : Ledger := { payments := [c3Payment], orders := [c3Order] }

/-- The C3 environment: the clock is past the ten-minute timeout and the
provider would answer SUCCESSFUL if it were asked. -/
def c3Env : ReconEnv :=
  { nowMs := 700000, timeoutMinutes := 10,
    transport := fun _ => .ok "SUCCESSFUL" none none,
    throwAt := fun _ => .noThrow }

/-- C3: a PENDING payment older than the configured timeout is resolved to
TIMEOUT with its order CANCELLED, and the pass contacts the provider only
for non-timed-out payments — every polled reference belongs to a payment
that is not timed out, so the timed-out payment is never polled.  The
environment (hence the provider's would-be answer, including SUCCESSFUL) is
arbitrary. -/
theorem c3_timeout_precedence (env : ReconEnv) (L : Ledger) (p : Payment)
    (o : Order) (hd : distinctPaymentIds L) (hdo : distinctOrderIds L)
    (hpair : (pendingOf L).Pairwise (fun a b => a.orderId ≠ b.orderId))
    (hp : p ∈ L.payments) (hpend : p.status = .PENDING)
    (ho : o ∈ L.orders) (hoid : o.id = p.orderId)
    (hto : isTimedOut env p = true)
    (hnothrow : env.throwAt p.id = .noThrow) :
    paymentStatusById (runReconciliation env L).ledger p.id
      = some .TIMEOUT ∧
    orderStatusById (runReconciliation env L).ledger p.orderId
      = some .CANCELLED ∧
    (∀ r ∈ (runReconciliation env L).polls,
      ∃ q, q ∈ pendingOf L ∧ isTimedOut env q = false ∧
        q.providerReference = some r) := by
  have hres : resolvedPaymentStatus env p = some .TIMEOUT := by
    unfold resolvedPaymentStatus
    rw [hto, hnothrow]
    rfl
  have hreso : resolvedOrderStatus env p = some .CANCELLED := by
    unfold resolvedOrderStatus
    rw [hto, hnothrow]
    rfl
  refine ⟨?_, ?_, ?_⟩
  · rw [runReconciliation_pending_status env hd hp hpend, hres]
    rfl
  · rw [runReconciliation_order_status env hdo hpair
      (mem_pendingOf.mpr ⟨hp, hpend⟩) ho hoid, hreso]
    rfl
  · intro r hr
    exact runReconciliation_polls_mem env L r hr

/-- Witness for C3 at the concrete scenario, with a provider that would
have answered SUCCESSFUL. -/
theorem c3_timeout_precedence_witness :
    paymentStatusById (runReconciliation c3Env c3Ledger).ledger
        c3Payment.id = some .TIMEOUT ∧
    orderStatusById (runReconciliation c3Env c3Ledger).ledger
        c3Payment.orderId = some .CANCELLED ∧
    (∀ r ∈ (runReconciliation c3Env c3Ledger).polls,
      ∃ q, q ∈ pendingOf c3Ledger ∧ isTimedOut c3Env q = false ∧
        q.providerReference = some r) :=
  c3_timeout_precedence c3Env c3Ledger c3Payment c3Order
    (by decide) (by decide) (by decide) (by decide) (by decide)
    (by decide) (by decide) (by decide) (by decide)

/-!
### C2 — transport failure during the status poll
-/

/-- The PENDING payment of the C2 scenario: young (one minute old), with a
recorded provider reference. -/
def c2Payment : Payment :=
  { id := "p1", orderId := "o1", provider := "mtn_momo", amountGhs := "25.00",
    currency := "GHS", status := .PENDING, providerReference := some "r1",
    externalId := "e1", customerPhone := "+233244123456",
    idempotencyKey := "k1", webhookPayload := none, createdAt := 0 }

/-- The owning order of the C2 scenario. -/
def c2Order : Order :=
  { id := "o1", status := .PENDING, customerPhone := some "+233244123456",
    totalGhs := "25.00", notes := none }

/-- The C2 ledger: one young PENDING payment and its order. -/
def c2Ledger : Ledger := { payments := [c2Payment], orders := [c2Order] }

/-- The C2 environment: well inside the timeout window, and the status poll
fails at the transport layer. -/
def c2Env : ReconEnv :=
  { nowMs := 60000, timeoutMinutes := 10,
    transport := fun _ => .networkError "ECONNREFUSED",
    throwAt := fun _ => .noThrow }

/-- C2 counterexample: for a PENDING payment that has not timed out and has
a provider reference, a transport failure during the status poll does NOT
leave the payment PENDING: `checkPaymentStatus` converts the failure into a
FAILED-shaped sentinel, which the reconciliation loop treats as a genuine
provider FAILED, marking the payment FAILED and cancelling its order. -/
theorem c2_counterexample :
    isTimedOut c2Env c2Payment = false ∧
    isTransportFailure (c2Env.transport "r1") = true ∧
    paymentStatusById (runReconciliation c2Env c2Ledger).ledger "p1"
      = some .FAILED ∧
    orderStatusById (runReconciliation c2Env c2Ledger).ledger "o1"
      = some .CANCELLED ∧
    paymentStatusById (runReconciliation c2Env c2Ledger).ledger "p1"
      ≠ some .PENDING := by
  refine ⟨?_, ?_, ?_, ?_, ?_⟩ <;> decide

/-- C2 amended: a transport failure while polling a young PENDING payment
with a recorded reference is converted by `checkPaymentStatus` into the
sentinel `status: "FAILED"`, and the reconciliation pass consequently marks
the payment FAILED and its order CANCELLED — the payment is not left
PENDING and is not retried on the next cycle. -/
theorem c2_transport_failure_marks_failed (env : ReconEnv) (L : Ledger)
    (p : Payment) (o : Order) (r : String)
    (hd : distinctPaymentIds L) (hdo : distinctOrderIds L)
    (hpair : (pendingOf L).Pairwise (fun a b => a.orderId ≠ b.orderId))
    (hp : p ∈ L.payments) (hpend : p.status = .PENDING)
    (ho : o ∈ L.orders) (hoid : o.id = p.orderId)
    (hto : isTimedOut env p = false)
    (href : p.providerReference = some r) (hre : r ≠ "")
    (hfail : isTransportFailure (env.transport r) = true)
    (hnothrow : env.throwAt p.id = .noThrow) :
    checkPaymentStatus (env.transport r)
      = { status := "FAILED", reason := some "Status check failed",
          financialTransactionId := none } ∧
    paymentStatusById (runReconciliation env L).ledger p.id
      = some .FAILED ∧
    orderStatusById (runReconciliation env L).ledger p.orderId
      = some .CANCELLED := by
  have hsent := checkPaymentStatus_of_transport_failure _ hfail
  have hres : resolvedPaymentStatus env p = some .FAILED := by
    unfold resolvedPaymentStatus
    rw [hto, href]
    simp [hre, hsent, hnothrow]
  have hreso : resolvedOrderStatus env p = some .CANCELLED := by
    unfold resolvedOrderStatus
    rw [hto, href]
    simp [hre, hsent, hnothrow]
  refine ⟨hsent, ?_, ?_⟩
  · rw [runReconciliation_pending_status env hd hp hpend, hres]
    rfl
  · rw [runReconciliation_order_status env hdo hpair
      (mem_pendingOf.mpr ⟨hp, hpend⟩) ho hoid, hreso]
    rfl

/-- Witness for C2 amended at the concrete scenario. -/
theorem c2_transport_failure_marks_failed_witness :
    checkPaymentStatus (c2Env.transport "r1")
      = { status := "FAILED", reason := some "Status check failed",
          financialTransactionId := none } ∧
    paymentStatusById (runReconciliation c2Env c2Ledger).ledger
        c2Payment.id = some .FAILED ∧
    orderStatusById (runReconciliation c2Env c2Ledger).ledger
        c2Payment.orderId = some .CANCELLED :=
  c2_transport_failure_marks_failed c2Env c2Ledger c2Payment c2Order "r1"
    (by decide) (by decide) (by decide) (by decide) (by decide) (by decide)
    (by decide) (by decide) (by decide) (by decide) (by decide) (by decide)

/-!
### C7 — batch resilience
-/

/-- The same environment with the exception at one payment id removed:
the run in which the failure at that payment did not occur. -/
def updateThrowAt (env : ReconEnv) (k : String) : ReconEnv :=
  { env with throwAt := fun i => if i = k then .noThrow else env.throwAt i }

/-- Removing the exception at one payment id leaves the exception behaviour
of every other payment unchanged. -/
theorem throwAt_updateThrowAt_ne (env : ReconEnv) (k i : String)
    (h : i ≠ k) : (updateThrowAt env k).throwAt i = env.throwAt i := by
  unfold updateThrowAt
  simp [h]

/-- The resolution of a payment depends on the exception behaviour only at
its own id. -/
theorem resolvedPaymentStatus_updateThrowAt (env : ReconEnv) (k : String)
    (p : Payment) (h : p.id ≠ k) :
    resolvedPaymentStatus (updateThrowAt env k) p
      = resolvedPaymentStatus env p := by
  unfold resolvedPaymentStatus
  rw [show (updateThrowAt env k).transport = env.transport from rfl,
    show isTimedOut (updateThrowAt env k) p = isTimedOut env p from rfl,
    throwAt_updateThrowAt_ne env k p.id h]

/-- The order resolution of a payment depends on the exception behaviour
only at its own id. -/
theorem resolvedOrderStatus_updateThrowAt (env : ReconEnv) (k : String)
    (p : Payment) (h : p.id ≠ k) :
    resolvedOrderStatus (updateThrowAt env k) p
      = resolvedOrderStatus env p := by
  unfold resolvedOrderStatus
  rw [show (updateThrowAt env k).transport = env.transport from rfl,
    show isTimedOut (updateThrowAt env k) p = isTimedOut env p from rfl,
    throwAt_updateThrowAt_ne env k p.id h]

/-- C7: when processing payment `pk` of the batch throws, every other
batch payment `pj` is still attempted (`processed` counts the whole
snapshot in both runs) and is resolved with exactly the payment status and
order status it would have received had the failure at `pk` not occurred
(the run under `updateThrowAt env pk.id`). -/
theorem c7_batch_resilience (env : ReconEnv) (L : Ledger)
    (pk pj : Payment) (o : Order)
    (hd : distinctPaymentIds L) (hdo : distinctOrderIds L)
    (hpair : (pendingOf L).Pairwise (fun a b => a.orderId ≠ b.orderId))
    (_hpk : pk ∈ pendingOf L) (hpj : pj ∈ pendingOf L)
    (hne : pj.id ≠ pk.id)
    (_hthrow : env.throwAt pk.id ≠ .noThrow)
    (ho : o ∈ L.orders) (hoid : o.id = pj.orderId) :
    paymentStatusById (runReconciliation env L).ledger pj.id
      = paymentStatusById
          (runReconciliation (updateThrowAt env pk.id) L).ledger pj.id ∧
    orderStatusById (runReconciliation env L).ledger pj.orderId
      = orderStatusById
          (runReconciliation (updateThrowAt env pk.id) L).ledger pj.orderId ∧
    (runReconciliation env L).processed = (pendingOf L).length ∧
    (runReconciliation (updateThrowAt env pk.id) L).processed
      = (pendingOf L).length := by
  have hmem := mem_pendingOf.mp hpj
  refine ⟨?_, ?_, runReconciliation_processed env L,
    runReconciliation_processed (updateThrowAt env pk.id) L⟩
  · rw [runReconciliation_pending_status env hd hmem.1 hmem.2,
      runReconciliation_pending_status (updateThrowAt env pk.id) hd hmem.1 hmem.2,
      resolvedPaymentStatus_updateThrowAt env pk.id pj hne]
  · rw [runReconciliation_order_status env hdo hpair hpj ho hoid,
      runReconciliation_order_status (updateThrowAt env pk.id) hdo hpair hpj ho hoid,
      resolvedOrderStatus_updateThrowAt env pk.id pj hne]

/-- First batch payment of the C7 scenario; processing it throws before
the payment write. -/
def c7Payment1 : Payment :=
  { id := "p1", orderId := "o1", provider := "mtn_momo", amountGhs := "25.00",
    currency := "GHS", status := .PENDING, providerReference := some "r1",
    externalId := "e1", customerPhone := "+233244123456",
    idempotencyKey := "k1", webhookPayload := none, createdAt := 0 }

/-- Second batch payment of the C7 scenario; the provider reports it
SUCCESSFUL. -/
def c7Payment2 : Payment :=
  { id := "p2", orderId := "o2", provider := "mtn_momo", amountGhs := "25.00",
    currency := "GHS", status := .PENDING, providerReference := some "r2",
    externalId := "e2", customerPhone := "+233244123456",
    idempotencyKey := "k2", webhookPayload := none, createdAt := 0 }

/-- Order owning the first C7 payment. -/
def c7Order1 : Order :=
  { id := "o1", status := .PENDING, customerPhone := none,
    totalGhs := "25.00", notes := none }

/-- Order owning the second C7 payment. -/
def c7Order2 : Order :=
  { id := "o2", status := .PENDING, customerPhone := none,
    totalGhs := "25.00", notes := none }

/-- The C7 ledger: two PENDING payments on distinct orders. -/
def c7Ledger : Ledger :=
  { payments := [c7Payment1, c7Payment2], orders := [c7Order1, c7Order2] }

/-- The C7 environment: processing the first payment throws, the second
payment's poll answers SUCCESSFUL. -/
def c7Env : ReconEnv :=
  { nowMs := 60000, timeoutMinutes := 10,
    transport := fun r =>
      if r = "r2" then .ok "SUCCESSFUL" none none
      else .networkError "boom",
    throwAt := fun i => if i = "p1" then .atPaymentWrite else .noThrow }

/-- Witness for C7 at the concrete two-payment batch in which the first
payment throws. -/
theorem c7_batch_resilience_witness :
    paymentStatusById (runReconciliation c7Env c7Ledger).ledger
        c7Payment2.id
      = paymentStatusById
          (runReconciliation (updateThrowAt c7Env c7Payment1.id) c7Ledger).ledger
          c7Payment2.id ∧
    orderStatusById (runReconciliation c7Env c7Ledger).ledger
        c7Payment2.orderId
      = orderStatusById
          (runReconciliation (updateThrowAt c7Env c7Payment1.id) c7Ledger).ledger
          c7Payment2.orderId ∧
    (runReconciliation c7Env c7Ledger).processed
      = (pendingOf c7Ledger).length ∧
    (runReconciliation (updateThrowAt c7Env c7Payment1.id) c7Ledger).processed
      = (pendingOf c7Ledger).length :=
  c7_batch_resilience c7Env c7Ledger c7Payment1 c7Payment2 c7Order2
    (by decide) (by decide) (by decide) (by decide) (by decide) (by decide)
    (by decide) (by decide) (by decide)

/-!
## Webhook Receiver

The `/api/webhooks/mtn-callback` route: after the optional signature check,
the notification is correlated to a payment by provider reference first,
falling back to external id; an uncorrelated notification gets a 404 with
no writes.  The mapped payment/order statuses (SUCCESSFUL or SUCCESS to
SUCCESS/PAID, FAILED or REJECTED to FAILED/CANCELLED, anything else to
PENDING/PENDING) are then written unconditionally — there is no guard on
the current status of the payment.  `sigCheck` models the signature
situation: `none` when no signature header is present (the route proceeds),
`some b` for a present header with validation outcome `b`.
-/

/-- One `storage.updateOrder` call made by the webhook route, with the
status the order had just before the write. -/
structure OrderWriteEvent where
  orderId : String
  oldStatus : Option OrderStatus
  newStatus : OrderStatus
deriving DecidableEq, Repr

/-- Result of one webhook delivery: the HTTP status, the ledger afterwards,
and the order writes performed. -/
structure WebhookOutcome where
  httpStatus : Nat
  ledger : Ledger
  orderWrites : List OrderWriteEvent
deriving DecidableEq, Repr

/-- The notification reports success (`SUCCESSFUL` or `SUCCESS`). -/
def webhookSaysSuccess (d : WebhookData) : Bool :=
  decide (d.status = some "SUCCESSFUL" ∨ d.status = some "SUCCESS")

/-- The notification reports failure (`FAILED` or `REJECTED`). -/
def webhookSaysFailure (d : WebhookData) : Bool :=
  decide (d.status = some "FAILED" ∨ d.status = some "REJECTED")

/-- The payment status the route writes for a notification. -/
def mapWebhookPaymentStatus (d : WebhookData) : PaymentStatus :=
  if webhookSaysSuccess d then .SUCCESS
  else if webhookSaysFailure d then .FAILED
  else .PENDING

/-- The order status the route writes for a notification. -/
def mapWebhookOrderStatus (d : WebhookData) : OrderStatus :=
  if webhookSaysSuccess d then .PAID
  else if webhookSaysFailure d then .CANCELLED
  else .PENDING

/-- First correlation attempt: by provider reference, tried only when the
notification carries a truthy `referenceId`. -/
def correlateByRef (d : WebhookData) (L : Ledger) : Option Payment :=
  if strTruthy d.referenceId then
    L.payments.find? (fun p => decide (p.providerReference = d.referenceId))
  else none

/-- Fallback correlation attempt: by external id, tried only when the
notification carries a truthy `externalId`. -/
def correlateByExt (d : WebhookData) (L : Ledger) : Option Payment :=
  if strTruthy d.externalId then
    L.payments.find? (fun p => decide (some p.externalId = d.externalId))
  else none

/-- Correlation: by provider reference when the notification carries a
truthy one, else by external id when it carries a truthy one. -/
def correlatePayment (d : WebhookData) (L : Ledger) : Option Payment :=
  match correlateByRef d L with
  | some p => some p
  | none => correlateByExt d L

/-- The payment update the route issues for the correlated payment: the
mapped status, `webhookData.referenceId || payment.providerReference`, and
the raw notification as the payload snapshot. -/
def webhookPaymentPatch (d : WebhookData) (p : Payment) : PaymentPatch :=
  { status := some (mapWebhookPaymentStatus d)
    providerReference :=
      some (if strTruthy d.referenceId then d.referenceId
            else p.providerReference)
    webhookPayload := some (.fromWebhook d) }

/-- The webhook route.  A present-but-invalid signature is rejected with
401 and no writes; an uncorrelated notification gets 404 and no writes;
otherwise the payment and then its order are updated unconditionally and
the route answers 200. -/
def handleMtnCallback (sigCheck : Option Bool) (d : WebhookData)
    (L : Ledger) : WebhookOutcome :=
  if sigCheck = some false then
    { httpStatus := 401, ledger := L, orderWrites := [] }
  else
    match correlatePayment d L with
    | none => { httpStatus := 404, ledger := L, orderWrites := [] }
    | some payment =>
      let L1 := updatePayment L payment.id (webhookPaymentPatch d payment)
      { httpStatus := 200
        ledger := updateOrder L1 payment.orderId (mapWebhookOrderStatus d)
        orderWrites := [{ orderId := payment.orderId
                          oldStatus := orderStatusById L1 payment.orderId
                          newStatus := mapWebhookOrderStatus d }] }

/-- The order writes of a delivery that actually changed an order status. -/
def changedOrderWrites (o : WebhookOutcome) : List OrderWriteEvent :=
  o.orderWrites.filter (fun e => decide (e.oldStatus ≠ some e.newStatus))

/-- A payment found by reference is a row of the ledger. -/
theorem correlateByRef_mem {d : WebhookData} {L : Ledger} {p : Payment}
    (h : correlateByRef d L = some p) : p ∈ L.payments := by
  unfold correlateByRef at h
  by_cases h1 : strTruthy d.referenceId = true
  · rw [if_pos h1] at h
    exact List.mem_of_find?_eq_some h
  · rw [if_neg h1] at h
    cases h

/-- A payment found by external id is a row of the ledger. -/
theorem correlateByExt_mem {d : WebhookData} {L : Ledger} {p : Payment}
    (h : correlateByExt d L = some p) : p ∈ L.payments := by
  unfold correlateByExt at h
  by_cases h1 : strTruthy d.externalId = true
  · rw [if_pos h1] at h
    exact List.mem_of_find?_eq_some h
  · rw [if_neg h1] at h
    cases h

/-- A correlated payment is a row of the ledger. -/
theorem correlatePayment_mem {d : WebhookData} {L : Ledger} {p : Payment}
    (h : correlatePayment d L = some p) : p ∈ L.payments := by
  unfold correlatePayment at h
  cases hr : correlateByRef d L with
  | some q =>
    simp only [hr] at h
    have hq : q = p := by simpa using h
    exact hq ▸ correlateByRef_mem hr
  | none =>
    simp only [hr] at h
    exact correlateByExt_mem h

/-- Unfolded form of a processed (non-rejected, correlated) delivery. -/
theorem handleMtnCallback_processed (sig : Option Bool) (d : WebhookData)
    (L : Ledger) (p : Payment) (hsig : ¬ sig = some false)
    (hc : correlatePayment d L = some p) :
    handleMtnCallback sig d L
      = { httpStatus := 200,
          ledger := updateOrder (updatePayment L p.id (webhookPaymentPatch d p))
            p.orderId (mapWebhookOrderStatus d),
          orderWrites := [⟨p.orderId,
            orderStatusById
              (updatePayment L p.id (webhookPaymentPatch d p)) p.orderId,
            mapWebhookOrderStatus d⟩] } := by
  unfold handleMtnCallback
  rw [if_neg hsig, hc]

/-!
### C1 — terminal payments and the two write paths
-/

/-- The C1 terminal payment: already SUCCESS. -/
def c1Payment : Payment :=
  { id := "p1", orderId := "o1", provider := "mtn_momo", amountGhs := "25.00",
    currency := "GHS", status := .SUCCESS, providerReference := some "r1",
    externalId := "e1", customerPhone := "+233244123456",
    idempotencyKey := "k1", webhookPayload := none, createdAt := 0 }

/-- The C1 order: already PAID. -/
def c1Order : Order :=
  { id := "o1", status := .PAID, customerPhone := none,
    totalGhs := "25.00", notes := none }

/-- The C1 ledger: one terminal payment and its paid order. -/
def c1Ledger : Ledger := { payments := [c1Payment], orders := [c1Order] }

/-- A webhook notification that correlates to the C1 payment but reports
FAILED. -/
def c1FailWebhook : WebhookData :=
  { status := some "FAILED", referenceId := some "r1", externalId := none }

/-- A webhook notification that correlates to the C1 payment and reports
the same terminal outcome it already has. -/
def c1SameWebhook : WebhookData :=
  { status := some "SUCCESSFUL", referenceId := some "r1", externalId := none }

/-- A reconciliation environment for the C1 witness. -/
def c1Env : ReconEnv :=
  { nowMs := 0, timeoutMinutes := 10,
    transport := fun _ => .ok "PENDING" none none,
    throwAt := fun _ => .noThrow }

/-- C1 counterexample: a payment already in the terminal status SUCCESS is
overwritten by a correlated webhook notification reporting FAILED — its
status after the delivery is FAILED, not its status before, and its order
is moved from PAID to CANCELLED.  The webhook path has no terminal-state
guard. -/
theorem c1_counterexample :
    c1Payment.status = .SUCCESS ∧
    correlatePayment c1FailWebhook c1Ledger = some c1Payment ∧
    paymentStatusById (handleMtnCallback none c1FailWebhook c1Ledger).ledger
        "p1" = some .FAILED ∧
    orderStatusById (handleMtnCallback none c1FailWebhook c1Ledger).ledger
        "o1" = some .CANCELLED ∧
    paymentStatusById (handleMtnCallback none c1FailWebhook c1Ledger).ledger
        "p1" ≠ some c1Payment.status := by
  refine ⟨?_, ?_, ?_, ?_, ?_⟩ <;> decide

/-- C1 amended: a reconciliation pass never changes a payment that is not
PENDING (its snapshot only contains PENDING payments), and it leaves the
owning order alone provided no other PENDING payment shares that order; an
inbound webhook, however, overwrites the correlated payment and its order
unconditionally, so a terminal payment and its order are preserved exactly
when the notification's mapped statuses coincide with the current ones. -/
theorem c1_terminal_preservation :
    (∀ (env : ReconEnv) (L : Ledger) (p : Payment) (o : Order),
      distinctPaymentIds L → distinctOrderIds L →
      p ∈ L.payments → p.status ≠ .PENDING →
      o ∈ L.orders → o.id = p.orderId →
      (∀ q ∈ pendingOf L, o.id ≠ q.orderId) →
      paymentStatusById (runReconciliation env L).ledger p.id
        = some p.status ∧
      orderStatusById (runReconciliation env L).ledger o.id
        = some o.status) ∧
    (∀ (sig : Option Bool) (d : WebhookData) (L : Ledger)
        (p : Payment) (o : Order),
      distinctPaymentIds L → distinctOrderIds L →
      correlatePayment d L = some p →
      o ∈ L.orders → o.id = p.orderId →
      mapWebhookPaymentStatus d = p.status →
      mapWebhookOrderStatus d = o.status →
      paymentStatusById (handleMtnCallback sig d L).ledger p.id
        = some p.status ∧
      orderStatusById (handleMtnCallback sig d L).ledger o.id
        = some o.status) := by
  constructor
  · intro env L p o hd hdo hp hnp ho hoid hns
    exact ⟨runReconciliation_nonpending_status env hd hp hnp,
      runReconciliation_order_frame env hdo ho hns⟩
  · intro sig d L p o hd hdo hc ho hoid hmapp hmapo
    have hmem : p ∈ L.payments := correlatePayment_mem hc
    by_cases hsig : sig = some false
    · have hout : handleMtnCallback sig d L
          = { httpStatus := 401, ledger := L, orderWrites := [] } := by
        unfold handleMtnCallback
        rw [if_pos hsig]
      rw [hout]
      constructor
      · show paymentStatusById L p.id = some p.status
        unfold paymentStatusById
        rw [paymentById_of_mem hd hmem]
        rfl
      · show orderStatusById L o.id = some o.status
        unfold orderStatusById
        rw [orderById_of_mem hdo ho]
        rfl
    · rw [handleMtnCallback_processed sig d L p hsig hc]
      constructor
      · show paymentStatusById
            (updateOrder (updatePayment L p.id (webhookPaymentPatch d p))
              p.orderId (mapWebhookOrderStatus d)) p.id = some p.status
        have h1 : paymentStatusById
            (updateOrder (updatePayment L p.id (webhookPaymentPatch d p))
              p.orderId (mapWebhookOrderStatus d)) p.id
            = paymentStatusById
              (updatePayment L p.id (webhookPaymentPatch d p)) p.id := rfl
        rw [h1, paymentStatusById_updatePayment_at _ _ _
            (mapWebhookPaymentStatus d) rfl]
        unfold paymentStatusById
        rw [paymentById_of_mem hd hmem]
        rw [show (some p).map (fun x => x.status) = some p.status from rfl]
        rw [Option.map_some', hmapp]
      · show orderStatusById
            (updateOrder (updatePayment L p.id (webhookPaymentPatch d p))
              p.orderId (mapWebhookOrderStatus d)) o.id = some o.status
        rw [hoid, orderStatusById_updateOrder_at]
        have h2 : orderStatusById
            (updatePayment L p.id (webhookPaymentPatch d p)) p.orderId
            = orderStatusById L p.orderId := rfl
        rw [h2, ← hoid]
        unfold orderStatusById
        rw [orderById_of_mem hdo ho, Option.map_some', Option.map_some', hmapo]

/-- Witness for C1 amended: the reconciliation part at the concrete
terminal ledger (whose PENDING snapshot is empty), and the webhook part at
a notification reporting the same terminal outcome the payment already
has. -/
theorem c1_terminal_preservation_witness :
    (paymentStatusById (runReconciliation c1Env c1Ledger).ledger
        c1Payment.id = some c1Payment.status ∧
     orderStatusById (runReconciliation c1Env c1Ledger).ledger
        c1Order.id = some c1Order.status) ∧
    (paymentStatusById
        (handleMtnCallback none c1SameWebhook c1Ledger).ledger
        c1Payment.id = some c1Payment.status ∧
     orderStatusById
        (handleMtnCallback none c1SameWebhook c1Ledger).ledger
        c1Order.id = some c1Order.status) :=
  ⟨c1_terminal_preservation.1 c1Env c1Ledger c1Payment c1Order
    (by decide) (by decide) (by decide) (by decide) (by decide) (by decide)
    (by decide),
   c1_terminal_preservation.2 none c1SameWebhook c1Ledger c1Payment c1Order
    (by decide) (by decide) (by decide) (by decide) (by decide) (by decide)
    (by decide)⟩

/-!
### C5 — idempotent re-delivery of a success notification
-/

/-- The provider reference of the patched payment is the merged value the
route computed. -/
theorem webhookPatched_ref (d : WebhookData) (p : Payment) :
    (applyPaymentPatch (webhookPaymentPatch d p) p).providerReference
      = if strTruthy d.referenceId then d.referenceId
        else p.providerReference := rfl

/-- Re-applying the webhook patch for the same notification to the already
patched payment changes nothing. -/
theorem webhookPatch_idem (d : WebhookData) (p : Payment) :
    applyPaymentPatch
        (webhookPaymentPatch d (applyPaymentPatch (webhookPaymentPatch d p) p))
        (applyPaymentPatch (webhookPaymentPatch d p) p)
      = applyPaymentPatch (webhookPaymentPatch d p) p := by
  by_cases htr : strTruthy d.referenceId = true <;>
    simp [applyPaymentPatch, webhookPaymentPatch, htr]

/-- The order-status write of the route is idempotent on a row. -/
theorem setOrderStatusIfId_idem (id : String) (st : OrderStatus) (o : Order) :
    setOrderStatusIfId id st (setOrderStatusIfId id st o)
      = setOrderStatusIfId id st o := by
  by_cases h : o.id = id <;> simp [setOrderStatusIfId, h]

/-- After the route's payment update, correlation by reference still finds
the (now patched) payment. -/
theorem correlateByRef_after_found (d : WebhookData) (L : Ledger)
    (p : Payment) (hd : distinctPaymentIds L)
    (hbr : correlateByRef d L = some p) :
    correlateByRef d (updatePayment L p.id (webhookPaymentPatch d p))
      = some (applyPaymentPatch (webhookPaymentPatch d p) p) := by
  unfold correlateByRef at hbr ⊢
  by_cases htr : strTruthy d.referenceId = true
  · rw [if_pos htr] at hbr ⊢
    have hmem : p ∈ L.payments := List.mem_of_find?_eq_some hbr
    have hqp : decide (p.providerReference = d.referenceId) = true := by
      have := List.find?_some hbr
      simpa using this
    have hfp : patchIfId p.id (webhookPaymentPatch d p) p
        = applyPaymentPatch (webhookPaymentPatch d p) p := by
      unfold patchIfId
      rw [if_pos rfl]
    have hpres : ∀ x ∈ L.payments,
        (fun x => decide (x.providerReference = d.referenceId))
            (patchIfId p.id (webhookPaymentPatch d p) x)
          = (fun x => decide (x.providerReference = d.referenceId)) x := by
      intro x hx
      by_cases hxid : x.id = p.id
      · have hxp : x = p := eq_of_mem_of_id_eq hd hmem hx hxid
        subst hxp
        rw [hfp]
        have href : (applyPaymentPatch (webhookPaymentPatch d x) x).providerReference
            = d.referenceId := by
          rw [webhookPatched_ref, if_pos htr]
        show decide ((applyPaymentPatch (webhookPaymentPatch d x) x).providerReference
            = d.referenceId) = decide (x.providerReference = d.referenceId)
        rw [href, hqp]
        simp
      · unfold patchIfId
        rw [if_neg hxid]
    show (L.payments.map (patchIfId p.id (webhookPaymentPatch d p))).find? _ = _
    rw [find?_map_pres _ _ L.payments hpres, hbr, Option.map_some', hfp]
  · rw [if_neg htr] at hbr
    cases hbr

/-- When the notification carries a truthy reference that matched nothing,
the patched payment now matches and is found by reference. -/
theorem correlateByRef_after_newmatch (d : WebhookData) (L : Ledger)
    (p : Payment) (hd : distinctPaymentIds L) (hmem : p ∈ L.payments)
    (htr : strTruthy d.referenceId = true)
    (hnone : correlateByRef d L = none) :
    correlateByRef d (updatePayment L p.id (webhookPaymentPatch d p))
      = some (applyPaymentPatch (webhookPaymentPatch d p) p) := by
  unfold correlateByRef at hnone ⊢
  rw [if_pos htr] at hnone ⊢
  have hall : ∀ x ∈ L.payments,
      ¬ decide (x.providerReference = d.referenceId) = true :=
    List.find?_eq_none.mp hnone
  have hfp : patchIfId p.id (webhookPaymentPatch d p) p
      = applyPaymentPatch (webhookPaymentPatch d p) p := by
    unfold patchIfId
    rw [if_pos rfl]
  have hq' : decide ((applyPaymentPatch (webhookPaymentPatch d p) p).providerReference
      = d.referenceId) = true := by
    rw [webhookPatched_ref, if_pos htr]
    simp
  have hm' : applyPaymentPatch (webhookPaymentPatch d p) p
      ∈ L.payments.map (patchIfId p.id (webhookPaymentPatch d p)) := by
    rw [← hfp]
    exact List.mem_map_of_mem _ hmem
  have huniq' : ∀ y ∈ L.payments.map (patchIfId p.id (webhookPaymentPatch d p)),
      decide (y.providerReference = d.referenceId) = true →
      y = applyPaymentPatch (webhookPaymentPatch d p) p := by
    intro y hy hqy
    rcases List.mem_map.mp hy with ⟨x, hx, rfl⟩
    by_cases hxid : x.id = p.id
    · rw [eq_of_mem_of_id_eq hd hmem hx hxid, hfp]
    · rw [show patchIfId p.id (webhookPaymentPatch d p) x = x by
          unfold patchIfId; rw [if_neg hxid]] at hqy ⊢
      exact absurd hqy (hall x hx)
  show (L.payments.map (patchIfId p.id (webhookPaymentPatch d p))).find? _ = _
  exact find?_eq_some_of_unique _ _ _ hm' hq' huniq'

/-- After the route's payment update, correlation by external id still
finds the (now patched) payment. -/
theorem correlateByExt_after (d : WebhookData) (L : Ledger) (p : Payment)
    (hd : distinctPaymentIds L)
    (hbe : correlateByExt d L = some p) :
    correlateByExt d (updatePayment L p.id (webhookPaymentPatch d p))
      = some (applyPaymentPatch (webhookPaymentPatch d p) p) := by
  unfold correlateByExt at hbe ⊢
  by_cases hex : strTruthy d.externalId = true
  · rw [if_pos hex] at hbe ⊢
    have hmem : p ∈ L.payments := List.mem_of_find?_eq_some hbe
    have hfp : patchIfId p.id (webhookPaymentPatch d p) p
        = applyPaymentPatch (webhookPaymentPatch d p) p := by
      unfold patchIfId
      rw [if_pos rfl]
    have hpres : ∀ x ∈ L.payments,
        (fun x => decide (some x.externalId = d.externalId))
            (patchIfId p.id (webhookPaymentPatch d p) x)
          = (fun x => decide (some x.externalId = d.externalId)) x := by
      intro x hx
      by_cases hxid : x.id = p.id
      · have hxp : x = p := eq_of_mem_of_id_eq hd hmem hx hxid
        subst hxp
        rw [hfp]
        rfl
      · unfold patchIfId
        rw [if_neg hxid]
    show (L.payments.map (patchIfId p.id (webhookPaymentPatch d p))).find? _ = _
    rw [find?_map_pres _ _ L.payments hpres, hbe, Option.map_some', hfp]
  · rw [if_neg hex] at hbe
    cases hbe

/-- After the route's payment update for a correlated payment, the same
notification correlates to the patched payment. -/
theorem correlatePayment_after_update (d : WebhookData) (L : Ledger)
    (p : Payment) (hd : distinctPaymentIds L)
    (hc : correlatePayment d L = some p) :
    correlatePayment d (updatePayment L p.id (webhookPaymentPatch d p))
      = some (applyPaymentPatch (webhookPaymentPatch d p) p) := by
  have hmem := correlatePayment_mem hc
  unfold correlatePayment at hc ⊢
  by_cases htr : strTruthy d.referenceId = true
  · cases hbr : correlateByRef d L with
    | some q =>
      simp only [hbr] at hc
      have hqp : q = p := by simpa using hc
      subst hqp
      simp only [correlateByRef_after_found d L q hd hbr]
    | none =>
      simp only [hbr] at hc
      simp only [correlateByRef_after_newmatch d L p hd hmem htr hbr]
  · have htr' : strTruthy d.referenceId = false := by simpa using htr
    have hbr : correlateByRef d L = none := by
      unfold correlateByRef
      rw [htr']
      rfl
    have hbr' : correlateByRef d
        (updatePayment L p.id (webhookPaymentPatch d p)) = none := by
      unfold correlateByRef
      rw [htr']
      rfl
    simp only [hbr] at hc
    simp only [hbr']
    exact correlateByExt_after d L p hd hc

/-- `updatePayment` whose row transformer fixes every row is the
identity. -/
theorem updatePayment_eq_self (L : Ledger) (k : String) (u : PaymentPatch)
    (h : ∀ x ∈ L.payments, patchIfId k u x = x) :
    updatePayment L k u = L := by
  unfold updatePayment
  rw [map_eq_self_of_fix _ _ h]

/-- `updateOrder` whose row transformer fixes every row is the identity. -/
theorem updateOrder_eq_self (L : Ledger) (k : String) (st : OrderStatus)
    (h : ∀ x ∈ L.orders, setOrderStatusIfId k st x = x) :
    updateOrder L k st = L := by
  unfold updateOrder
  rw [map_eq_self_of_fix _ _ h]

/-- The ledger left behind by a processed webhook delivery for its
correlated payment. -/
def webhookApplied (d : WebhookData) (p : Payment) (L : Ledger) : Ledger :=
  updateOrder (updatePayment L p.id (webhookPaymentPatch d p)) p.orderId
    (mapWebhookOrderStatus d)

/-- The processed delivery, phrased through `webhookApplied`. -/
theorem handleMtnCallback_ledger (sig : Option Bool) (d : WebhookData)
    (L : Ledger) (p : Payment) (hsig : ¬ sig = some false)
    (hc : correlatePayment d L = some p) :
    (handleMtnCallback sig d L).ledger = webhookApplied d p L := by
  rw [handleMtnCallback_processed sig d L p hsig hc]
  rfl

/-- Payment status at the correlated key after a processed delivery. -/
theorem webhookApplied_paymentStatus (d : WebhookData) (L : Ledger)
    (p : Payment) (hd : distinctPaymentIds L) (hmem : p ∈ L.payments) :
    paymentStatusById (webhookApplied d p L) p.id
      = some (mapWebhookPaymentStatus d) := by
  unfold webhookApplied
  rw [show paymentStatusById
      (updateOrder (updatePayment L p.id (webhookPaymentPatch d p)) p.orderId
        (mapWebhookOrderStatus d)) p.id
    = paymentStatusById (updatePayment L p.id (webhookPaymentPatch d p)) p.id
    from rfl]
  rw [paymentStatusById_updatePayment_at _ _ _ (mapWebhookPaymentStatus d) rfl]
  unfold paymentStatusById
  rw [paymentById_of_mem hd hmem, Option.map_some', Option.map_some']

/-- Order status at the owning key after a processed delivery (the order
must exist for the write to land on a row). -/
theorem webhookApplied_orderStatus (d : WebhookData) (L : Ledger)
    (p : Payment) (ho : (orderById L p.orderId).isSome = true) :
    orderStatusById (webhookApplied d p L) p.orderId
      = some (mapWebhookOrderStatus d) := by
  unfold webhookApplied
  rw [orderStatusById_updateOrder_at]
  rw [show orderStatusById (updatePayment L p.id (webhookPaymentPatch d p))
      p.orderId = orderStatusById L p.orderId from rfl]
  obtain ⟨o, hoe⟩ := Option.isSome_iff_exists.mp ho
  unfold orderStatusById
  rw [hoe, Option.map_some', Option.map_some']

/-- Applying the same delivery a second time, now correlated to the patched
payment, leaves the ledger exactly as it was: the payment patch is
idempotent and the order write rewrites the same status. -/
theorem webhookApplied_second (d : WebhookData) (L : Ledger) (p : Payment)
    (hd : distinctPaymentIds L) (hmem : p ∈ L.payments) :
    webhookApplied d (applyPaymentPatch (webhookPaymentPatch d p) p)
        (webhookApplied d p L)
      = webhookApplied d p L := by
  have hfix1 : ∀ x ∈ (webhookApplied d p L).payments,
      patchIfId (applyPaymentPatch (webhookPaymentPatch d p) p).id
        (webhookPaymentPatch d (applyPaymentPatch (webhookPaymentPatch d p) p))
        x = x := by
    intro x hx
    have hx' : x ∈ L.payments.map (patchIfId p.id (webhookPaymentPatch d p)) :=
      hx
    rcases List.mem_map.mp hx' with ⟨y, hy, rfl⟩
    by_cases hyid : y.id = p.id
    · rw [eq_of_mem_of_id_eq hd hmem hy hyid]
      rw [show patchIfId p.id (webhookPaymentPatch d p) p
          = applyPaymentPatch (webhookPaymentPatch d p) p from by
        unfold patchIfId; rw [if_pos rfl]]
      unfold patchIfId
      rw [if_pos rfl]
      exact webhookPatch_idem d p
    · rw [show patchIfId p.id (webhookPaymentPatch d p) y = y from by
        unfold patchIfId; rw [if_neg hyid]]
      unfold patchIfId
      rw [if_neg
        (show y.id ≠ (applyPaymentPatch (webhookPaymentPatch d p) p).id
          from hyid)]
  have hfix2 : ∀ x ∈ (webhookApplied d p L).orders,
      setOrderStatusIfId
        (applyPaymentPatch (webhookPaymentPatch d p) p).orderId
        (mapWebhookOrderStatus d) x = x := by
    intro x hx
    have hx' : x ∈ L.orders.map
        (setOrderStatusIfId p.orderId (mapWebhookOrderStatus d)) := hx
    rcases List.mem_map.mp hx' with ⟨y, hy, rfl⟩
    exact setOrderStatusIfId_idem p.orderId (mapWebhookOrderStatus d) y
  show updateOrder (updatePayment (webhookApplied d p L) _ _) _ _
      = webhookApplied d p L
  rw [updatePayment_eq_self _ _ _ hfix1]
  exact updateOrder_eq_self _ _ _ hfix2

/-- C5: a success notification correlated to a payment leaves the payment
in SUCCESS and its order in PAID after the first delivery, and applying the
identical notification a second time is a state no-op: the ledger is
unchanged by the re-delivery and the single order write of the second
delivery writes the status the order already has, so no order-status change
event occurs. -/
theorem c5_webhook_idempotent (sig : Option Bool) (d : WebhookData)
    (L : Ledger) (p : Payment)
    (hsig : ¬ sig = some false)
    (hd : distinctPaymentIds L)
    (hsucc : webhookSaysSuccess d = true)
    (hc : correlatePayment d L = some p)
    (ho : (orderById L p.orderId).isSome = true) :
    (handleMtnCallback sig d (handleMtnCallback sig d L).ledger).ledger
      = (handleMtnCallback sig d L).ledger ∧
    paymentStatusById (handleMtnCallback sig d L).ledger p.id
      = some .SUCCESS ∧
    orderStatusById (handleMtnCallback sig d L).ledger p.orderId
      = some .PAID ∧
    paymentStatusById
        (handleMtnCallback sig d (handleMtnCallback sig d L).ledger).ledger
        p.id = some .SUCCESS ∧
    orderStatusById
        (handleMtnCallback sig d (handleMtnCallback sig d L).ledger).ledger
        p.orderId = some .PAID ∧
    changedOrderWrites
      (handleMtnCallback sig d (handleMtnCallback sig d L).ledger) = [] := by
  have hmem := correlatePayment_mem hc
  have hmapp : mapWebhookPaymentStatus d = .SUCCESS := by
    unfold mapWebhookPaymentStatus
    rw [if_pos hsucc]
  have hmapo : mapWebhookOrderStatus d = .PAID := by
    unfold mapWebhookOrderStatus
    rw [if_pos hsucc]
  have hO1led : (handleMtnCallback sig d L).ledger = webhookApplied d p L :=
    handleMtnCallback_ledger sig d L p hsig hc
  have hcor2 : correlatePayment d (webhookApplied d p L)
      = some (applyPaymentPatch (webhookPaymentPatch d p) p) :=
    correlatePayment_after_update d L p hd hc
  have hO2 := handleMtnCallback_processed sig d (webhookApplied d p L)
    (applyPaymentPatch (webhookPaymentPatch d p) p) hsig hcor2
  have hO2led : (handleMtnCallback sig d (webhookApplied d p L)).ledger
      = webhookApplied d p L := by
    rw [hO2]
    show webhookApplied d (applyPaymentPatch (webhookPaymentPatch d p) p)
        (webhookApplied d p L) = webhookApplied d p L
    exact webhookApplied_second d L p hd hmem
  have hPS1 : paymentStatusById (webhookApplied d p L) p.id = some .SUCCESS := by
    rw [webhookApplied_paymentStatus d L p hd hmem, hmapp]
  have hOS1 : orderStatusById (webhookApplied d p L) p.orderId = some .PAID := by
    rw [webhookApplied_orderStatus d L p ho, hmapo]
  refine ⟨?_, ?_, ?_, ?_, ?_, ?_⟩
  · rw [hO1led, hO2led]
  · rw [hO1led]
    exact hPS1
  · rw [hO1led]
    exact hOS1
  · rw [hO1led, hO2led]
    exact hPS1
  · rw [hO1led, hO2led]
    exact hOS1
  · rw [hO1led]
    rw [show handleMtnCallback sig d (webhookApplied d p L)
        = { httpStatus := 200,
            ledger := updateOrder (updatePayment (webhookApplied d p L)
              (applyPaymentPatch (webhookPaymentPatch d p) p).id
              (webhookPaymentPatch d
                (applyPaymentPatch (webhookPaymentPatch d p) p)))
              (applyPaymentPatch (webhookPaymentPatch d p) p).orderId
              (mapWebhookOrderStatus d),
            orderWrites := [⟨(applyPaymentPatch (webhookPaymentPatch d p) p).orderId,
              orderStatusById (updatePayment (webhookApplied d p L)
                (applyPaymentPatch (webhookPaymentPatch d p) p).id
                (webhookPaymentPatch d
                  (applyPaymentPatch (webhookPaymentPatch d p) p)))
                (applyPaymentPatch (webhookPaymentPatch d p) p).orderId,
              mapWebhookOrderStatus d⟩] } from hO2]
    unfold changedOrderWrites
    have hold : orderStatusById (updatePayment (webhookApplied d p L)
        (applyPaymentPatch (webhookPaymentPatch d p) p).id
        (webhookPaymentPatch d
          (applyPaymentPatch (webhookPaymentPatch d p) p)))
        (applyPaymentPatch (webhookPaymentPatch d p) p).orderId
        = some .PAID := by
      rw [show orderStatusById (updatePayment (webhookApplied d p L)
          (applyPaymentPatch (webhookPaymentPatch d p) p).id
          (webhookPaymentPatch d
            (applyPaymentPatch (webhookPaymentPatch d p) p)))
          (applyPaymentPatch (webhookPaymentPatch d p) p).orderId
        = orderStatusById (webhookApplied d p L) p.orderId from rfl]
      exact hOS1
    simp [hold, hmapo]

/-- The C5 payment: already SUCCESS from the first delivery of the success
notification. -/
def c5Payment : Payment :=
  { id := "p1", orderId := "o1", provider := "mtn_momo", amountGhs := "25.00",
    currency := "GHS", status := .SUCCESS, providerReference := some "r1",
    externalId := "e1", customerPhone := "+233244123456",
    idempotencyKey := "k1",
    webhookPayload := none, createdAt := 0 }

/-- The C5 order: already PAID. -/
def c5Order : Order :=
  { id := "o1", status := .PAID, customerPhone := none,
    totalGhs := "25.00", notes := none }

/-- The C5 ledger. -/
def c5Ledger : Ledger := { payments := [c5Payment], orders := [c5Order] }

/-- The success notification delivered twice in the C5 scenario. -/
def c5Webhook : WebhookData :=
  { status := some "SUCCESSFUL", referenceId := some "r1", externalId := none }

/-- Witness for C5 at the concrete scenario. -/
theorem c5_webhook_idempotent_witness :
    (handleMtnCallback none c5Webhook
        (handleMtnCallback none c5Webhook c5Ledger).ledger).ledger
      = (handleMtnCallback none c5Webhook c5Ledger).ledger ∧
    paymentStatusById (handleMtnCallback none c5Webhook c5Ledger).ledger
        c5Payment.id = some .SUCCESS ∧
    orderStatusById (handleMtnCallback none c5Webhook c5Ledger).ledger
        c5Payment.orderId = some .PAID ∧
    paymentStatusById (handleMtnCallback none c5Webhook
        (handleMtnCallback none c5Webhook c5Ledger).ledger).ledger
        c5Payment.id = some .SUCCESS ∧
    orderStatusById (handleMtnCallback none c5Webhook
        (handleMtnCallback none c5Webhook c5Ledger).ledger).ledger
        c5Payment.orderId = some .PAID ∧
    changedOrderWrites (handleMtnCallback none c5Webhook
        (handleMtnCallback none c5Webhook c5Ledger).ledger) = [] :=
  c5_webhook_idempotent none c5Webhook c5Ledger c5Payment
    (by decide) (by decide) (by decide) (by decide) (by decide)
